import Mathlib

/-!
# Verification of the xcube-cds CDS data-store adapter

This file gives a shallow embedding of the core of the `xcube_cds` package
(`xcube_cds/store.py` and the dataset handlers under `xcube_cds/datasets/`)
and proves or refutes the specification claims about it.

Modelling conventions:

* Python `datetime.datetime` values are modelled by the structure `DT`
  (year/month/day/hour/minute fields, proleptic Gregorian calendar).  ISO-8601
  parsing (`dateutil.parser.isoparse`) is an external collaborator, so the
  embedded functions take already-parsed `DT` values.  The fragment of the
  code exercised by the claims never inspects seconds or sub-second fields of
  parsed inputs (the sentinel datetimes built by `convert_time_range` are at
  minute resolution), hence minute resolution is faithful here; the single
  place where a one-microsecond offset matters (`_create_time_range`) is
  modelled explicitly on top of an exact microsecond timestamp.
* `dateutil.rrule.rrule(freq, dtstart, until)` enumerates
  `dtstart, dtstart+1*freq, ...` while the value is `≤ until`; it is modelled
  by `rruleList step fuel dt until` with an explicit fuel.  In
  `convert_time_range` the `until` argument is always capped
  (`dtstart + 24 hours`, `+ 100 days`, `+ 366 days` respectively), so fuels of
  25, 101 and 14 are sufficient for the recursion to stop on the `until`
  bound, never on the fuel, for every valid input.
* Python `dict`s whose keys are strings are modelled as association lists
  (`PyDict`), with `dict.update` replacing existing keys in place and
  appending new keys, as CPython does.
-/

/-- Gregorian leap-year rule, as implemented by Python's `datetime`
(proleptic Gregorian calendar). -/
def isLeap (y : ℕ) : Bool :=
  y % 4 == 0 && (y % 100 != 0 || y % 400 == 0)

/-- Number of days in month `m` (1-12) of year `y`; 0 for out-of-range
month numbers. -/
def daysInMonth (y m : ℕ) : ℕ :=
  if m = 1 then 31
  else if m = 2 then (if isLeap y then 29 else 28)
  else if m = 3 then 31
  else if m = 4 then 30
  else if m = 5 then 31
  else if m = 6 then 30
  else if m = 7 then 31
  else if m = 8 then 31
  else if m = 9 then 30
  else if m = 10 then 31
  else if m = 11 then 30
  else if m = 12 then 31
  else 0

/-- Days of year `y` that lie strictly before month `m` (so
`daysBeforeMonth y 1 = 0`); defined as a sum so that successive months
differ by `daysInMonth`.  (`daysInMonth y 0 = 0`, hence summing from 0 is
harmless.) -/
def daysBeforeMonth (y m : ℕ) : ℕ :=
  ((List.range m).map (fun i => daysInMonth y i)).sum

/-- Number of days in year `y`. -/
def daysInYear (y : ℕ) : ℕ := daysBeforeMonth y 13

/-- Days strictly before year `y`, counting from year 0. -/
def daysBeforeYear : ℕ → ℕ
  | 0 => 0
  | y + 1 => daysBeforeYear y + daysInYear y

/-- A calendar datetime at minute resolution, the model of Python
`datetime.datetime` (seconds and microseconds are zero in every value the
embedded code constructs). -/
structure DT where
  year : ℕ
  month : ℕ
  day : ℕ
  hour : ℕ
  minute : ℕ
deriving DecidableEq, Repr

/-- Validity of a `DT`: exactly the invariant Python's `datetime` enforces
at construction (restricted to the fields modelled here). -/
def DT.Valid (a : DT) : Prop :=
  1 ≤ a.month ∧ a.month ≤ 12 ∧ 1 ≤ a.day ∧ a.day ≤ daysInMonth a.year a.month
    ∧ a.hour < 24 ∧ a.minute < 60

instance (a : DT) : Decidable a.Valid := by
  unfold DT.Valid; infer_instance

/-- Absolute day index of the date part of `a` (days since 0000-01-01,
well-defined for valid values). -/
def dayNumber (a : DT) : ℕ :=
  daysBeforeYear a.year + daysBeforeMonth a.year a.month + (a.day - 1)

/-- Absolute minute index of `a`; the linearisation used to reason about
datetime ordering and arithmetic. -/
def toMin (a : DT) : ℕ :=
  (dayNumber a * 24 + a.hour) * 60 + a.minute

/-- Python's `datetime` comparison: lexicographic on
(year, month, day, hour, minute). -/
def dtLt (a b : DT) : Prop :=
  a.year < b.year ∨ (a.year = b.year ∧
    (a.month < b.month ∨ (a.month = b.month ∧
      (a.day < b.day ∨ (a.day = b.day ∧
        (a.hour < b.hour ∨ (a.hour = b.hour ∧ a.minute < b.minute)))))))

instance (a b : DT) : Decidable (dtLt a b) := by
  unfold dtLt; infer_instance

def dtLe (a b : DT) : Prop := dtLt a b ∨ a = b

instance (a b : DT) : Decidable (dtLe a b) := by
  unfold dtLe; infer_instance

/-- Python's `min` on two datetimes. -/
def minDT (a b : DT) : DT := if dtLe a b then a else b

/-- Advance a datetime by one hour (the step of an `HOURLY` recurrence
rule), carrying into day/month/year as needed; minutes are preserved. -/
def succHour : DT → DT
  | ⟨y, m, d, h, mi⟩ =>
    if h + 1 < 24 then ⟨y, m, d, h + 1, mi⟩
    else if d + 1 ≤ daysInMonth y m then ⟨y, m, d + 1, 0, mi⟩
    else if m + 1 ≤ 12 then ⟨y, m + 1, 1, 0, mi⟩
    else ⟨y + 1, 1, 1, 0, mi⟩

/-- Advance a datetime by one day (the step of a `DAILY` recurrence rule);
time of day is preserved. -/
def succDay : DT → DT
  | ⟨y, m, d, h, mi⟩ =>
    if d + 1 ≤ daysInMonth y m then ⟨y, m, d + 1, h, mi⟩
    else if m + 1 ≤ 12 then ⟨y, m + 1, 1, h, mi⟩
    else ⟨y + 1, 1, 1, h, mi⟩

/-- Advance a datetime by one month (the step of a `MONTHLY` recurrence
rule started on the first of a month); day and time are preserved. -/
def succMonth : DT → DT
  | ⟨y, m, d, h, mi⟩ =>
    if m + 1 ≤ 12 then ⟨y, m + 1, d, h, mi⟩
    else ⟨y + 1, 1, d, h, mi⟩

/-- Model of `dtstart + datetime.timedelta(hours=n)`. -/
def addHours (n : ℕ) (a : DT) : DT := succHour^[n] a

/-- Model of `dtstart + datetime.timedelta(days=n)`. -/
def addDays (n : ℕ) (a : DT) : DT := succDay^[n] a

/-- Model of `dateutil.rrule.rrule(freq, dtstart, until)`: the occurrences
`dtstart, step dtstart, step (step dtstart), ...` while `≤ until`.  `fuel`
bounds the recursion; every call site passes a fuel strictly larger than
the number of occurrences its capped `until` admits, so the enumeration
always stops on the `until` bound. -/
def rruleList (step : DT → DT) : ℕ → DT → DT → List DT
  | 0, _, _ => []
  | fuel + 1, dt, until_ =>
    if dtLe dt until_ then dt :: rruleList step fuel (step dt) until_ else []

/-- Python's `sorted(set(xs))`: the strictly increasing enumeration of the
distinct elements of `xs`. -/
def sortedSet (xs : List ℤ) : List ℤ :=
  xs.dedup.insertionSort (· ≤ ·)

/-- The record returned by `CDSDatasetHandler.convert_time_range`
(a dict with keys 'hours', 'days', 'months', 'years'). -/
structure TimeSelectors where
  hours : List ℤ
  days : List ℤ
  months : List ℤ
  years : List ℤ
deriving DecidableEq, Repr

/-- Model of `CDSDatasetHandler.convert_time_range` (store.py), on already-parsed
endpoint datetimes.  The length-2 check and ISO parsing happen on the raw
string list before this point; the `end is None → datetime.now()` default
is outside the modelled fragment (the claims fix both endpoints). -/
def convert_time_range (t0 t1 : DT) : TimeSelectors :=
  let hour0 : DT := ⟨t0.year, t0.month, t0.day, t0.hour, 0⟩
  let hour1 : DT := ⟨t1.year, t1.month, t1.day, t1.hour, 59⟩
  let hourMax : DT := addHours 24 hour0
  let hours := sortedSet (((rruleList succHour 25 hour0 (minDT hour1 hourMax)).map
    (fun d => (d.hour : ℤ))))
  let day0 : DT := ⟨t0.year, t0.month, t0.day, 0, 1⟩
  let day1 : DT := ⟨t1.year, t1.month, t1.day, 23, 59⟩
  let dayMax : DT := addDays 100 day0
  let days := sortedSet (((rruleList succDay 101 day0 (minDT day1 dayMax)).map
    (fun d => (d.day : ℤ))))
  let month0 : DT := ⟨t0.year, t0.month, 1, 0, 0⟩
  let month1 : DT := ⟨t1.year, t1.month, 28, 0, 0⟩
  let monthMax : DT := addDays 366 month0
  let months := sortedSet (((rruleList succMonth 14 month0 (minDT month1 monthMax)).map
    (fun d => (d.month : ℤ))))
  let years := (List.range (t1.year + 1 - t0.year)).map (fun i => ((t0.year + i : ℕ) : ℤ))
  ⟨hours, days, months, years⟩

/-- Model of Python's `str.split(sep)` for a single-character separator
(implemented over the character list so that it evaluates by reduction). -/
def splitChars (sep : Char) : List Char → List (List Char)
  | [] => [[]]
  | c :: rest =>
    match splitChars sep rest with
    | [] => [[c]]
    | g :: gs => if c = sep then [] :: g :: gs else (c :: g) :: gs

def pySplit (s : String) (sep : Char) : List String :=
  (splitChars sep s.data).map String.mk

/-- Model of Python's `str.replace(old, new)` for single characters (the
only use in the embedded code is `version.replace('.', '_')`). -/
def pyReplaceChar (s : String) (old new : Char) : String :=
  String.mk (s.data.map (fun c => if c = old then new else c))

/-- Decimal value of a digit string. -/
def digitsToNat (cs : List Char) : ℕ :=
  cs.foldl (fun acc c => acc * 10 + (c.toNat - 48)) 0

/-! ## Time-selector formatter (`transform_time_params`) -/

/-- Pad a decimal digit string on the left with zeros to width `w`. -/
def padZeros (w : ℕ) (s : String) : String :=
  String.mk (List.replicate (w - s.length) '0') ++ s

/-- Python's `f-string` formatting `{x:0wd}` of an integer: zero-padded to
total width `w`, with a leading minus sign counting towards the width. -/
def fmtInt (w : ℕ) (x : ℤ) : String :=
  if 0 ≤ x then padZeros w (toString x.natAbs)
  else "-" ++ padZeros (w - 1) (toString x.natAbs)

/-- The `HH:00` hour format used for the CDS `time` key. -/
def fmtHourStr (x : ℤ) : String := fmtInt 2 x ++ ":00"

/-- Model of `CDSDatasetHandler.transform_time_param` (store.py): rename a
pluralized time-specifier key and format its integer list, or return
`none` (Python `(None, None)`) for unrecognized keys. -/
def transform_time_param (key : String) (value : List ℤ) :
    Option (String × List String) :=
  if key = "hours" then some ("time", value.map fmtHourStr)
  else if key = "days" then some ("day", value.map (fmtInt 2))
  else if key = "months" then some ("month", value.map (fmtInt 2))
  else if key = "years" then some ("year", value.map (fmtInt 4))
  else none

/-- Model of `CDSDatasetHandler.transform_time_params` (store.py): the dict
comprehension keeping only the recognized, renamed entries.  Dicts are
association lists here; the inputs this is applied to have distinct keys,
so the comprehension is a `filterMap`. -/
def transform_time_params (params : List (String × List ℤ)) :
    List (String × List String) :=
  params.filterMap (fun kv => transform_time_param kv.1 kv.2)

/-- The items of the dict returned by `convert_time_range`, in insertion
order, as fed by the handlers into `transform_time_params`. -/
def selectorsItems (s : TimeSelectors) : List (String × List ℤ) :=
  [("hours", s.hours), ("days", s.days), ("months", s.months), ("years", s.years)]

/-! ## Python values, dicts and exceptions -/

/-- A Python value as it appears in the parameter dictionaries of this
code base: strings, integers, rationals (floats are exact decimals here),
parsed datetimes, `None`, and (nested) lists. -/
inductive PyVal where
  | str (s : String)
  | int (n : ℤ)
  | rat (q : ℚ)
  | dt (d : DT)
  | pynone
  | list (xs : List PyVal)

/-- A string-keyed association list modelling a Python `dict` with the
given value type; insertion order is preserved as CPython does. -/
abbrev SDict (α : Type) : Type := List (String × α)

def sdictKeys {α : Type} (d : SDict α) : List String := d.map Prod.fst

def sdictGet {α : Type} (d : SDict α) (k : String) : Option α :=
  match d with
  | [] => none
  | (k₀, v) :: rest => if k₀ = k then some v else sdictGet rest k

def sdictHas {α : Type} (d : SDict α) (k : String) : Bool :=
  (sdictGet d k).isSome

/-- Python `d[k] = v`: replace the value in place if the key exists,
otherwise append the new entry. -/
def sdictSet {α : Type} (d : SDict α) (k : String) (v : α) : SDict α :=
  match d with
  | [] => [(k, v)]
  | (k₀, v₀) :: rest =>
    if k₀ = k then (k₀, v) :: rest else (k₀, v₀) :: sdictSet rest k v

/-- Python `d.update(e)`. -/
def sdictUpdate {α : Type} (d e : SDict α) : SDict α :=
  e.foldl (fun acc kv => sdictSet acc kv.1 kv.2) d

/-- Python `d.pop(k, None)` (the returned value is discarded at every
modelled call site). -/
def sdictPop {α : Type} (d : SDict α) (k : String) : SDict α :=
  d.filter (fun kv => kv.1 ≠ k)

abbrev PyDict : Type := SDict PyVal

/-- Python's `v == []` test on a parameter value: true exactly for the
empty-list value. -/
def PyVal.isEmptyList : PyVal → Bool
  | PyVal.list [] => true
  | _ => false

/-- Model of `CDSDatasetHandler.unwrap_singleton_values` (store.py). -/
def unwrap_singleton_values (dictionary : PyDict) : PyDict :=
  dictionary.map (fun kv =>
    (kv.1, match kv.2 with
           | PyVal.list [x] => x
           | v => v))

/-- The Python exceptions raised by the modelled code. -/
inductive PyErr where
  | valueError (msg : String)
  | keyError (key : String)
  | typeError
  | attributeError
  | assertionError
  | importError (name : String)
  | validationError
  | dataStoreError (msg : String)
  | notImplementedError
deriving DecidableEq, Repr

/-- Read a `PyVal` expected to be a string (Python would raise on a
mismatch at the point of use). -/
def asStr : PyVal → Except PyErr String
  | PyVal.str s => .ok s
  | _ => .error .typeError

def asRat : PyVal → Except PyErr ℚ
  | PyVal.rat q => .ok q
  | PyVal.int n => .ok (n : ℚ)
  | _ => .error .typeError

def asStrList : PyVal → Except PyErr (List String)
  | PyVal.list xs => xs.mapM asStr
  | _ => .error .typeError

def asIntList : PyVal → Except PyErr (List ℤ)
  | PyVal.list xs => xs.mapM (fun v => match v with
      | PyVal.int n => Except.ok n
      | _ => Except.error PyErr.typeError)
  | _ => .error .typeError

/-- A geographic bounding box, W/S/E/N. -/
structure BBox where
  x0 : ℚ
  y0 : ℚ
  x1 : ℚ
  y1 : ℚ
deriving DecidableEq, Repr

def asBBox : PyVal → Except PyErr BBox
  | PyVal.list [PyVal.rat a, PyVal.rat b, PyVal.rat c, PyVal.rat d] =>
    .ok ⟨a, b, c, d⟩
  | _ => .error .typeError

/-- A `time_range` open parameter, already ISO-parsed.  The `end is None`
variant (meaning "now") lies outside the modelled fragment: the claims fix
both endpoints. -/
def asDtPair : PyVal → Except PyErr (DT × DT)
  | PyVal.list [PyVal.dt a, PyVal.dt b] => .ok (a, b)
  | _ => .error .typeError

/-- Python `d[k]` with its `KeyError`. -/
def dictItem (d : PyDict) (k : String) : Except PyErr PyVal :=
  match sdictGet d k with
  | some v => .ok v
  | none => .error (.keyError k)

/-- First element of a Python list (`xs[0]`), raising `IndexError`
(collapsed into `typeError` here, the claims never reach it). -/
def headE {α : Type} : List α → Except PyErr α
  | [] => .error .typeError
  | x :: _ => .ok x

/-! ## Schemas (external JSON-schema engine, modelled shallowly) -/

/-- Modelled from the spec: the external schema engine
(`xcube.util.jsonschema` / `jsonschema`) is an external collaborator.  A
schema is modelled as its top-level property list (with per-property
defaults), required-key list and additional-properties flag; these are the
only parts the embedded control flow inspects (`validate_instance`,
`.properties[...].default`). -/
structure JSchema where
  props : SDict (Option PyVal)
  required : List String
  additionalOk : Bool

/-- Modelled from the spec: `schema.validate_instance(params)` fails with
a schema-violation error; the top-level required-key and
additional-properties checks are modelled, and the per-property value
checks are presupposed by the valid-parameter hypotheses of the claims. -/
def validateInstance (schema : JSchema) (params : PyDict) :
    Except PyErr Unit :=
  if (∀ k ∈ schema.required, k ∈ sdictKeys params)
      ∧ (schema.additionalOk = true
          ∨ ∀ k ∈ sdictKeys params, k ∈ sdictKeys schema.props) then
    .ok ()
  else .error .validationError

/-- The default-filling step of `CDSDataOpener.open_data`:
`{k: props[k].default for k in props if default defined}` then
`.update(open_params)`. -/
def fillDefaults (schema : JSchema) (params : PyDict) : PyDict :=
  sdictUpdate (schema.props.filterMap (fun kv => kv.2.map (fun d => (kv.1, d))))
    params

/-! ## Sea-ice handler (`xcube_cds/datasets/seaice.py`, class `SeaiceHandler`) -/

/-- Model of `SeaiceHandler._data_id_map`. -/
def seaiceDataIdMap : SDict String :=
  [("satellite-sea-ice-thickness:envisat", "Sea ice thickness (Envisat)"),
   ("satellite-sea-ice-thickness:cryosat-2", "Sea ice thickness (CryoSat-2)")]

def seaiceDataIds : List String := sdictKeys seaiceDataIdMap

/-- Model of `VariableProperties` for the sea-ice handler (seaice.py wraps the
dates in singleton lists). -/
structure SeaiceVarProps where
  cdrTypes : List String
  startDate : PyVal
  endDate : PyVal

/-- Model of `SeaiceHandler._var_map`. -/
def seaiceVarMap : SDict SeaiceVarProps :=
  [("envisat", ⟨["cdr"], PyVal.list [PyVal.str "2002-10-01"],
     PyVal.list [PyVal.str "2010-10-31"]⟩),
   ("cryosat-2", ⟨["cdr", "icdr"], PyVal.list [PyVal.str "2010-11-01"],
     PyVal.pynone⟩)]

def seaiceVarMapGet (k : String) : Except PyErr SeaiceVarProps :=
  match sdictGet seaiceVarMap k with
  | some v => .ok v
  | none => .error (.keyError k)

/-- Model of `SeaiceHandler.get_open_data_params_schema` (seaice.py).  The method
begins with `_, mission_spec, _ = data_id.split(':')`, a three-way tuple
unpacking; Python raises `ValueError` when the split does not yield
exactly three parts. -/
def seaiceGetOpenDataParamsSchema (data_id : String) :
    Except PyErr JSchema := do
  let parts := pySplit data_id ':'
  let mission_spec ← (match parts with
    | [_, m, _] => Except.ok m
    | _ => Except.error (PyErr.valueError "not enough values to unpack"))
  let _ ← seaiceVarMapGet mission_spec
  .ok { props :=
          [("time_range", none),
           ("variable_names", some (PyVal.list [PyVal.str "all"])),
           ("type_of_record", some (PyVal.str "cdr")),
           ("version", some (PyVal.str "2.0"))],
        required := ["time_range"],
        additionalOk := false }

/-- Model of `SeaiceHandler.transform_params` (seaice.py). -/
def seaiceTransformParams (opener_params : PyDict) (data_id : String) :
    Except PyErr (String × PyDict) := do
  let parts := pySplit data_id ':'
  let mission ← (match parts with
    | [_, m] => Except.ok m
    | _ => Except.error (PyErr.valueError "not enough values to unpack"))
  let variable_properties ← seaiceVarMapGet mission
  let version ← (match sdictGet opener_params "version" with
    | some v => do let s ← asStr v; Except.ok (pyReplaceChar s '.' '_')
    | none => Except.ok (pyReplaceChar "2_0" '.' '_'))
  let cdr_type ← (match sdictGet opener_params "type_of_record" with
    | some v => asStr v
    | none => headE variable_properties.cdrTypes)
  let cds_params : PyDict :=
    [("satellite", PyVal.str mission),
     ("cdr_type", PyVal.str cdr_type),
     ("type_of_record", PyVal.str cdr_type),
     ("version", PyVal.str version),
     ("variable", PyVal.str "all"),
     ("format", PyVal.str "tgz")]
  let tr ← dictItem opener_params "time_range"
  let (t0, t1) ← asDtPair tr
  let time_selectors := transform_time_params (selectorsItems
    (convert_time_range t0 t1))
  let time_selectors := (time_selectors.filter (fun kv => kv.1 ≠ "time")).filter
    (fun kv => kv.1 ≠ "day")
  let unsupported_months : List String := ["05", "06", "07", "08", "09"]
  let month0 ← (match sdictGet time_selectors "month" with
    | some v => Except.ok v
    | none => Except.error (PyErr.keyError "month"))
  let monthF := unsupported_months.foldl
    (fun l u => if u ∈ l then l.erase u else l) month0
  let time_selectors := sdictSet time_selectors "month" monthF
  let cds_params := sdictUpdate cds_params
    (time_selectors.map (fun kv => (kv.1, PyVal.list (kv.2.map PyVal.str))))
  let unwrapped := unwrap_singleton_values cds_params
  .ok ("satellite-sea-ice-thickness", unwrapped)

/-- Model of `SeaiceHandler.describe_data` (seaice.py), reduced to the descriptor
fields the opener's empty-dataset path reads (`bbox`, `spatial_res`,
`time_period`).  The seaice descriptor sets no `time_period`, so the field
is `None`. -/
structure DescriptorCore where
  bbox : BBox
  spatial_res : ℚ
  time_period : Option String
deriving DecidableEq, Repr

def seaiceDescribeCore (data_id : String) : Except PyErr DescriptorCore := do
  let _ ← (match pySplit data_id ':' with
    | [_, m] => Except.ok m
    | _ => Except.error (PyErr.valueError "not enough values to unpack"))
  .ok ⟨⟨-180, 166239 / 10000, 180, 90⟩, 25, none⟩

/-! ## Soil-moisture handler (`xcube_cds/datasets/satellite_soil_moisture.py`) -/

/-- Model of `SoilMoistureHandler._data_id_map`. -/
def smDataIdMap : SDict String :=
  [("satellite-soil-moisture:saturation:daily", "Soil moisture (saturation, daily)"),
   ("satellite-soil-moisture:saturation:10-day", "Soil moisture (saturation, 10-day)"),
   ("satellite-soil-moisture:saturation:monthly", "Soil moisture (saturation, monthly)"),
   ("satellite-soil-moisture:volumetric:daily", "Soil moisture (volumetric, daily)"),
   ("satellite-soil-moisture:volumetric:10-day", "Soil moisture (volumetric, 10-day)"),
   ("satellite-soil-moisture:volumetric:monthly", "Soil moisture (volumetric, monthly)")]

def smDataIds : List String := sdictKeys smDataIdMap

structure SMVarProps where
  varNames : List String
  sensorTypes : List String

/-- Model of `SoilMoistureHandler._var_map`. -/
def smVarMap : SDict SMVarProps :=
  [("saturation", ⟨["soil_moisture_saturation"], ["active"]⟩),
   ("volumetric", ⟨["volumetric_surface_soil_moisture"],
     ["combined_passive_and_active", "passive"]⟩)]

/-- Model of `SoilMoistureHandler._aggregation_map`. -/
def smAggregationMap : SDict String :=
  [("daily", "1D"), ("10-day", "10D"), ("monthly", "1M")]

/-- The aggregation-period-to-CDS-keyword dict literal inside
`SoilMoistureHandler.transform_params`. -/
def smCdsAggregationMap : SDict String :=
  [("daily", "day_average"), ("10-day", "10_day_average"),
   ("monthly", "month_average")]

def sdictItem {α : Type} (d : SDict α) (k : String) : Except PyErr α :=
  match sdictGet d k with
  | some v => .ok v
  | none => .error (.keyError k)

/-- Model of `SoilMoistureHandler.transform_params`. -/
def smTransformParams (opener_params : PyDict) (data_id : String) :
    Except PyErr (String × PyDict) := do
  let (variable_spec, aggregation) ← (match pySplit data_id ':' with
    | [_, v, a] => Except.ok (v, a)
    | _ => Except.error (PyErr.valueError "not enough values to unpack"))
  let variable_properties ← sdictItem smVarMap variable_spec
  let variablesList := variable_properties.varNames
  let _ ← (if variablesList.length = 1 then Except.ok ()
    else Except.error PyErr.assertionError)
  let variableName ← headE variablesList
  let cds_aggregation_specifier ← sdictItem smCdsAggregationMap aggregation
  let type_of_sensor ← (match sdictGet opener_params "type_of_sensor" with
    | some v => asStr v
    | none => headE variable_properties.sensorTypes)
  let tor ← dictItem opener_params "type_of_record"
  let ver ← dictItem opener_params "version"
  let cds_params : PyDict :=
    [("variable", PyVal.str variableName),
     ("type_of_sensor", PyVal.str type_of_sensor),
     ("time_aggregation", PyVal.str cds_aggregation_specifier),
     ("type_of_record", tor),
     ("version", ver),
     ("format", PyVal.str "tgz")]
  let tr ← dictItem opener_params "time_range"
  let (t0, t1) ← asDtPair tr
  let time_selectors := transform_time_params (selectorsItems
    (convert_time_range t0 t1))
  let cds_params := sdictUpdate cds_params
    (time_selectors.map (fun kv => (kv.1, PyVal.list (kv.2.map PyVal.str))))
  let unwrapped := unwrap_singleton_values cds_params
  .ok ("satellite-soil-moisture", unwrapped)

/-- Model of `SoilMoistureHandler.get_open_data_params_schema`. -/
def smGetOpenDataParamsSchema (data_id : String) : Except PyErr JSchema := do
  let variable_spec ← (match pySplit data_id ':' with
    | [_, v, _] => Except.ok v
    | _ => Except.error (PyErr.valueError "not enough values to unpack"))
  let vp ← sdictItem smVarMap variable_spec
  let v0 ← headE vp.varNames
  let base : SDict (Option PyVal) :=
    [("time_range", none),
     ("variable_names", some (PyVal.list [PyVal.str v0])),
     ("type_of_record", some (PyVal.str "cdr")),
     ("version", some (PyVal.str "v201912.0.0"))]
  let props := if vp.sensorTypes.length > 1 then
      (do let s0 ← headE vp.sensorTypes
          Except.ok (base ++ [("type_of_sensor", some (PyVal.str s0))]))
    else Except.ok base
  let props ← props
  .ok { props := props, required := ["time_range"], additionalOk := false }

/-- Model of `SoilMoistureHandler.describe_data`, reduced to the fields the
empty-dataset path reads. -/
def smDescribeCore (data_id : String) : Except PyErr DescriptorCore := do
  let (_, aggregation) ← (match pySplit data_id ':' with
    | [_, v, a] => Except.ok (v, a)
    | _ => Except.error (PyErr.valueError "not enough values to unpack"))
  let tp ← sdictItem smAggregationMap aggregation
  .ok ⟨⟨-180, -90, 180, 90⟩, 1 / 4, some tp⟩

/-! ## ERA5 handler (`xcube_cds/datasets/reanalysis_era5.py`) -/

/-- Modelled from the spec: the per-dataset JSON info tables read by
`ERA5DatasetHandler._read_dataset_info` (files `*.json` next to the module)
are data of this repository that is not under `src/`; the fields the
embedded code reads are modelled as this record, per the spec's data model
(variables table rows are (request name, NetCDF name, units, long name);
`time_period` is a period string such as "1M", "10D", "1Y"). -/
structure ERA5DsInfo where
  description : String
  varTable : List (String × String × String × String)
  bbox : BBox
  spatial_res : ℚ
  time_period : String
  product_types : List (String × String)
  crs : String

abbrev ERA5Table : Type := SDict ERA5DsInfo

/-- The blacklist of broken dataset/product-type combinations in
`ERA5DatasetHandler._read_dataset_info`. -/
def era5Blacklist : List String :=
  ["reanalysis-era5-land-monthly-means:monthly_averaged_reanalysis_by_hour_of_day",
   "reanalysis-era5-single-levels-monthly-means:monthly_averaged_ensemble_members_by_hour_of_day",
   "reanalysis-era5-single-levels-monthly-means:monthly_averaged_reanalysis_by_hour_of_day"]

/-- Model of `ERA5DatasetHandler._read_dataset_info`: the `_valid_data_ids` list
(dataset id, or dataset id + ":" + product type, minus the blacklist). -/
def era5ValidDataIds (table : ERA5Table) : List String :=
  table.flatMap (fun kv =>
    if kv.2.product_types = [] then
      (if kv.1 ∈ era5Blacklist then [] else [kv.1])
    else kv.2.product_types.filterMap (fun pt =>
      let did := kv.1 ++ ":" ++ pt.1
      if did ∈ era5Blacklist then none else some did))

/-- Model of `data_id.split(":") if ":" in data_id else (data_id, None)` with its
two-way tuple unpacking (`ValueError` when a compound id has more than one
colon). -/
def era5SplitId (data_id : String) : Except PyErr (String × Option String) :=
  match pySplit data_id ':' with
  | [a] => .ok (a, none)
  | [a, b] => .ok (a, some b)
  | _ => .error (.valueError "too many values to unpack")

/-- The first component of a compound id (`data_id.split(":")[0]`). -/
def era5BaseId (data_id : String) : String :=
  match pySplit data_id ':' with
  | [] => data_id
  | a :: _ => a

/-- Model of `ERA5DatasetHandler.get_open_data_params_schema`. -/
def era5GetOpenDataParamsSchema (table : ERA5Table) (data_id : String) :
    Except PyErr JSchema := do
  let _ ← sdictItem table (era5BaseId data_id)
  .ok { props := [("variable_names", none), ("bbox", none),
                  ("spatial_res", none), ("time_range", none)],
        required := ["variable_names", "bbox", "time_range"],
        additionalOk := false }

/-- Model of `ERA5DatasetHandler.describe_data`, reduced to the fields the
empty-dataset path reads. -/
def era5DescribeCore (table : ERA5Table) (data_id : String) :
    Except PyErr DescriptorCore := do
  let info ← sdictItem table (era5BaseId data_id)
  .ok ⟨info.bbox, info.spatial_res, some info.time_period⟩

/-- The `{1: "format", 2: "data_format"}[self._api_version]` dict lookup
selecting the output-format key name. -/
def era5FormatKey (api_version : ℕ) : Except PyErr String :=
  if api_version = 1 then .ok "format"
  else if api_version = 2 then .ok "data_format"
  else .error (.keyError "api_version")

/-- The explicit hours/days/months/years entries of the opener-parameter
dict, in that fixed insertion order.  The source passes the whole dict to
`transform_time_params`, which drops every unrecognized key, so only these
four entries can contribute. -/
def era5ExplicitTimeEntries (params : PyDict) :
    Except PyErr (List (String × List ℤ)) := do
  let pick := fun (k : String) => match sdictGet params k with
    | some v => (asIntList v).map (fun l => [(k, l)])
    | none => Except.ok []
  let hs ← pick "hours"
  let ds ← pick "days"
  let ms ← pick "months"
  let ys ← pick "years"
  .ok (hs ++ ds ++ ms ++ ys)

/-- Model of `ERA5DatasetHandler.transform_params` (reanalysis_era5.py). -/
def era5TransformParams (table : ERA5Table) (api_version : ℕ)
    (plugin_params : PyDict) (data_id : String) :
    Except PyErr (String × PyDict) := do
  let (dataset_name, product_type) ← era5SplitId data_id
  let bboxV ← dictItem plugin_params "bbox"
  let bbox ← asBBox bboxV
  let resolution ← (match sdictGet plugin_params "spatial_res" with
    | some v => asRat v
    | none => do
      let ds_info ← sdictItem table (era5BaseId data_id)
      Except.ok ds_info.spatial_res)
  let vnV ← dictItem plugin_params "variable_names"
  let variable_names ← (match vnV with
    | PyVal.list [] =>
      Except.error (PyErr.valueError "variable_names may not be an empty list.")
    | PyVal.pynone => do
      let info ← sdictItem table dataset_name
      Except.ok (info.varTable.map (fun row => row.1))
    | v => asStrList v)
  let fmtKey ← era5FormatKey api_version
  let params_combined : PyDict :=
    [("variable", PyVal.list (variable_names.map PyVal.str)),
     ("area", PyVal.list [PyVal.rat (bbox.y1 - resolution / 2),
                          PyVal.rat (bbox.x0 + resolution / 2),
                          PyVal.rat (bbox.y0 + resolution / 2),
                          PyVal.rat (bbox.x1 - resolution / 2)]),
     (fmtKey, PyVal.str "netcdf")]
  let params_combined := if sdictHas plugin_params "spatial_res" then
      sdictSet params_combined "grid"
        (PyVal.list [PyVal.rat resolution, PyVal.rat resolution])
    else params_combined
  let params_combined := (match product_type with
    | some pt => sdictSet params_combined "product_type" (PyVal.str pt)
    | none => params_combined)
  let tr ← dictItem plugin_params "time_range"
  let (t0, t1) ← asDtPair tr
  let time_params_from_range := transform_time_params (selectorsItems
    (convert_time_range t0 t1))
  let params_combined := sdictUpdate params_combined
    (time_params_from_range.map (fun kv => (kv.1, PyVal.list (kv.2.map PyVal.str))))
  let explicitEntries ← era5ExplicitTimeEntries plugin_params
  let time_params_explicit := transform_time_params explicitEntries
  let params_combined := sdictUpdate params_combined
    (time_params_explicit.map (fun kv => (kv.1, PyVal.list (kv.2.map PyVal.str))))
  let desingletonned := unwrap_singleton_values params_combined
  .ok (dataset_name, desingletonned)

/-! ## Handler registry and opener (`CDSDataOpener`, store.py) -/

inductive HandlerTag where
  | era5
  | soilMoisture
  | seaice
deriving DecidableEq, Repr

/-- Model of `CDSDataOpener._register_dataset_handler`: insert every supported data
id of a handler into the registry dict. -/
def registerHandler (reg : SDict HandlerTag) (tag : HandlerTag)
    (ids : List String) : SDict HandlerTag :=
  ids.foldl (fun r i => sdictSet r i tag) reg

/-- The top-level names defined by module `xcube_cds/datasets/seaice.py`:
the namedtuple `VariableProperties` and the class `SeaiceHandler`. -/
def seaiceModuleTopLevelNames : List String :=
  ["VariableProperties", "SeaiceHandler"]

/-- Model of `from xcube_cds.datasets.seaice import SeaIceHandler` (store.py,
`CDSDataOpener.__init__`): a `from ... import name` statement raises
`ImportError` when the module does not define `name`. -/
def importSeaiceHandlerClass (name : String) : Except PyErr Unit :=
  if name ∈ seaiceModuleTopLevelNames then .ok () else .error (.importError name)

/-- Model of `CDSDataOpener.__init__`: build the handler registry (the filesystem
side effects of `_create_temporary_directory` are outside the model).  The
three handlers are registered in source order; the sea-ice import is the
third step. -/
def cdsDataOpenerInit (table : ERA5Table) :
    Except PyErr (SDict HandlerTag) := do
  let reg : SDict HandlerTag := []
  let reg := registerHandler reg HandlerTag.era5 (era5ValidDataIds table)
  let reg := registerHandler reg HandlerTag.soilMoisture smDataIds
  let _ ← importSeaiceHandlerClass "SeaIceHandler"
  .ok (registerHandler reg HandlerTag.seaice seaiceDataIds)

/-- The handler registry as the source intends it (and as the claims and
the tests assume): all three handlers registered.  Claims about the
methods of a constructed opener/store are settled against this registry;
the defect that `CDSDataOpener.__init__` cannot actually reach this state
is settled separately (the sea-ice import). -/
def intendedRegistry (table : ERA5Table) : SDict HandlerTag :=
  registerHandler (registerHandler (registerHandler []
    HandlerTag.era5 (era5ValidDataIds table))
    HandlerTag.soilMoisture smDataIds)
    HandlerTag.seaice seaiceDataIds

/-- Model of `CDSDataOpener._validate_data_id`. -/
def validateDataId (table : ERA5Table) (allow_none : Bool)
    (data_id : Option String) : Except PyErr Unit :=
  match data_id with
  | none => if allow_none then .ok ()
      else .error (.valueError "Unknown data id \"None\"")
  | some i =>
    if sdictHas (intendedRegistry table) i then .ok ()
    else .error (.valueError ("Unknown data id \"" ++ i ++ "\""))

/-- Model of `CDSDataOpener._get_default_open_params_schema`. -/
def defaultOpenParamsSchema : JSchema :=
  { props := [("dataset_name", none), ("variable_names", none), ("crs", none),
              ("bbox", none), ("spatial_res", none), ("time_range", none),
              ("time_period", none)],
    required := ["variable_names", "bbox", "spatial_res", "time_range"],
    additionalOk := true }

/-- Model of `CDSDataOpener.get_open_data_params_schema`: validate the id (allowing
`None`) and dispatch to the owning handler. -/
def openerGetOpenDataParamsSchema (table : ERA5Table)
    (data_id : Option String) : Except PyErr JSchema := do
  let _ ← validateDataId table true data_id
  match data_id with
  | none => .ok defaultOpenParamsSchema
  | some i =>
    match sdictGet (intendedRegistry table) i with
    | some HandlerTag.era5 => era5GetOpenDataParamsSchema table i
    | some HandlerTag.soilMoisture => smGetOpenDataParamsSchema i
    | some HandlerTag.seaice => seaiceGetOpenDataParamsSchema i
    | none => .error (.keyError i)

/-- Model of `describe_data` dispatch to the owning handler (descriptor reduced to
the fields the claims read). -/
def handlerDescribeCore (table : ERA5Table) (data_id : String) :
    Except PyErr DescriptorCore :=
  match sdictGet (intendedRegistry table) data_id with
  | some HandlerTag.era5 => era5DescribeCore table data_id
  | some HandlerTag.soilMoisture => smDescribeCore data_id
  | some HandlerTag.seaice => seaiceDescribeCore data_id
  | none => .error (.keyError data_id)

/-! ## Empty-dataset synthesis (`_create_empty_dataset`, `_create_time_range`) -/

/-- Model of `CDSDataOpener._parse_time_period`: the regex
`^(\d+)([hmsDWMY])$`.  Returns the integer count and the unit character,
or `none` when the regex does not match (the source then crashes with
`AttributeError` on `None.group`). -/
def parseTimePeriod (specifier : String) : Option (ℕ × Char) :=
  let cs := specifier.toList
  match cs.reverse with
  | [] => none
  | u :: restRev =>
    let digits := restRev.reverse
    if u ∈ ['h', 'm', 's', 'D', 'W', 'M', 'Y']
        ∧ digits ≠ [] ∧ digits.all Char.isDigit then
      some (digitsToNat digits, u)
    else none

/-- Months-since-year-zero index of a datetime (the value of its
`%Y-%m` rendering on the `datetime64[M]` axis, up to a constant offset). -/
def monthsSince (a : DT) : ℤ := 12 * (a.year : ℤ) + ((a.month : ℤ) - 1)

/-- Model of `dt + dateutil.relativedelta.relativedelta(months=k)` (also used for
`years=k` via `k = 12 * years`): advance the month index and clamp the day
to the target month's length. -/
def addMonthsClamp (k : ℕ) (a : DT) : DT :=
  let mi := 12 * a.year + (a.month - 1) + k
  let y := mi / 12
  let m := mi % 12 + 1
  ⟨y, m, min a.day (daysInMonth y m), a.hour, a.minute⟩

/-- Microsecond timestamp of a (minute-resolution) datetime. -/
def toMicro (a : DT) : ℤ := (toMin a : ℤ) * 60000000

/-- The exact microsecond length of one period unit for the
fixed-length units (h/m/s and D/W via `relativedelta`). -/
def unitMicro (u : Char) : ℤ :=
  if u = 'h' then 3600000000
  else if u = 'm' then 60000000
  else if u = 's' then 1000000
  else if u = 'D' then 86400000000
  else 604800000000

/-- Model of `numpy.arange(start, stop, step)` over integer indices (positive
step): `start + k * step` for `k < ⌈(stop - start) / step⌉`. -/
def arangeInt (start stop step : ℤ) : List ℤ :=
  (List.range (Int.toNat ⌈((stop - start : ℤ) : ℚ) / (step : ℚ)⌉)).map
    (fun k => start + k * step)

/-- Model of `numpy.arange(start, stop, step)` over rationals (positive step). -/
def arangeRat (start stop step : ℚ) : List ℚ :=
  (List.range (Int.toNat ⌈(stop - start) / step⌉)).map
    (fun k => start + k * step)

/-- The time coordinate produced by `_create_time_range`: a
`datetime64[M]` month-index axis for month/year periods, otherwise a
`datetime64[us]` microsecond axis. -/
structure TimeCoord where
  monthlyRes : Bool
  values : List ℤ
deriving DecidableEq, Repr

/-- Model of `CDSDataOpener._create_time_range` on parsed endpoints.  For an `M`/`Y`
period the endpoints are rendered at month resolution, with the end
extended by one period minus one microsecond (which moves it back one
month exactly when the extended end is the first instant of a month);
otherwise exact microsecond arithmetic is used.  A `None` period makes
`re.match` raise `TypeError`; an unmatchable period string makes
`time_match.group` raise `AttributeError`. -/
def createTimeRange (t_start t_end : DT) (t_interval : Option String) :
    Except PyErr TimeCoord := do
  let spec ← (match t_interval with
    | none => Except.error PyErr.typeError
    | some s => Except.ok s)
  let (period_number, period_unit) ← (match parseTimePeriod spec with
    | none => Except.error PyErr.attributeError
    | some p => Except.ok p)
  if period_unit = 'M' ∨ period_unit = 'Y' then
    let stepMonths : ℤ := period_number * (if period_unit = 'Y' then 12 else 1)
    let adj := addMonthsClamp
      (period_number * (if period_unit = 'Y' then 12 else 1)) t_end
    let range_start : ℤ := monthsSince t_start
    let range_end : ℤ := monthsSince adj -
      (if adj.day = 1 ∧ adj.hour = 0 ∧ adj.minute = 0 then 1 else 0)
    .ok ⟨true, arangeInt range_start range_end stepMonths⟩
  else
    let stepUs : ℤ := period_number * unitMicro period_unit
    let range_start : ℤ := toMicro t_start
    let range_end : ℤ := toMicro t_end + period_number * unitMicro period_unit - 1
    .ok ⟨false, arangeInt range_start range_end stepUs⟩

/-- The dataset produced by the empty-variables short circuit: no data
variables, just the synthesized `time`/`lat`/`lon` coordinates. -/
structure EmptyDataset where
  dataVars : List String
  lon : List ℚ
  lat : List ℚ
  time : TimeCoord
deriving DecidableEq, Repr

/-- Model of `CDSDataOpener._create_empty_dataset`. -/
def createEmptyDataset (table : ERA5Table) (data_id : String)
    (open_params : PyDict) : Except PyErr EmptyDataset := do
  let dd ← (do
    let _ ← validateDataId table false (some data_id)
    handlerDescribeCore table data_id)
  let bbox ← (match sdictGet open_params "bbox" with
    | some v => asBBox v
    | none => Except.ok dd.bbox)
  let spatial_res ← (match sdictGet open_params "spatial_res" with
    | some v => asRat v
    | none => Except.ok dd.spatial_res)
  let tr ← dictItem open_params "time_range"
  let (t0, t1) ← asDtPair tr
  let lons := arangeRat bbox.x0 (bbox.x1 + spatial_res * (99 / 100)) spatial_res
  let lats := arangeRat bbox.y0 (bbox.y1 + spatial_res * (99 / 100)) spatial_res
  let times ← createTimeRange t0 t1 dd.time_period
  .ok ⟨[], lons, lats, times⟩

/-- The outcome of `CDSDataOpener.open_data`: either the synthesized
empty dataset (no backend client is ever created on this path), or the
point just before `_open_data_with_handler` would instantiate the backend
client and issue `retrieve(dataset_name, request, path)` (network and file
reading are external collaborators). -/
inductive OpenOutcome where
  | empty (ds : EmptyDataset)
  | fetch (dataset_name : String) (request : PyDict)

/-- Model of `CDSDataOpener.open_data` (the `_read_file_from`/`_save_*` debug
parameters are absent in the modelled calls). -/
def openerOpenData (table : ERA5Table) (api_version : ℕ) (data_id : String)
    (open_params : PyDict) : Except PyErr OpenOutcome := do
  let schema ← openerGetOpenDataParamsSchema table (some data_id)
  let _ ← validateInstance schema open_params
  let handler ← (match sdictGet (intendedRegistry table) data_id with
    | some t => Except.ok t
    | none => Except.error (PyErr.keyError data_id))
  let all_open_params := fillDefaults schema open_params
  let vn ← dictItem all_open_params "variable_names"
  if vn.isEmptyList then do
    let ds ← createEmptyDataset table data_id all_open_params
    .ok (OpenOutcome.empty ds)
  else do
    let (dataset_name, cds_api_params) ← (match handler with
      | HandlerTag.era5 => era5TransformParams table api_version all_open_params data_id
      | HandlerTag.soilMoisture => smTransformParams all_open_params data_id
      | HandlerTag.seaice => seaiceTransformParams all_open_params data_id)
    .ok (OpenOutcome.fetch dataset_name cds_api_params)

/-! ## Store facade (`CDSDataStore`, store.py) -/

/-- Model of `xcube_cds.constants.CDS_DATA_OPENER_ID`. -/
def CDS_DATA_OPENER_ID : String := "dataset:netcdf:cds"

/-- A data-type argument of the store's catalogue methods.  Modelled from
the spec: data types are an external xcube concept; `DATASET_TYPE`
('dataset') is a super-type of itself and of 'dataset[cube]' and of no
other type (per the store's tests and the xcube data-type contract). -/
inductive DataTypeArg where
  | noType
  | dataset
  | datasetCube
  | other (s : String)
deriving DecidableEq, Repr

/-- Model of `CDSDataStore._is_data_type_satisfied`. -/
def isDataTypeSatisfied : DataTypeArg → Bool
  | DataTypeArg.noType => true
  | DataTypeArg.dataset => true
  | DataTypeArg.datasetCube => true
  | DataTypeArg.other _ => false

/-- Model of `CDSDataStore._validate_data_type`. -/
def validateDataType (t : DataTypeArg) : Except PyErr Unit :=
  if isDataTypeSatisfied t then .ok ()
  else .error (.dataStoreError "Supplied data type is not compatible")

/-- Model of `CDSDataStore._assert_valid_opener_id`. -/
def assertValidOpenerId (opener_id : Option String) : Except PyErr Unit :=
  match opener_id with
  | none => .ok ()
  | some oid =>
    if oid = CDS_DATA_OPENER_ID then .ok ()
    else .error (.dataStoreError "Data opener identifier must be valid")

/-- Model of `CDSDataStore.describe_data`. -/
def storeDescribeData (table : ERA5Table) (data_id : String)
    (data_type : DataTypeArg) : Except PyErr DescriptorCore := do
  let _ ← validateDataId table false (some data_id)
  let _ ← validateDataType data_type
  handlerDescribeCore table data_id

/-- Model of `CDSDataStore.get_open_data_params_schema`. -/
def storeGetOpenDataParamsSchema (table : ERA5Table)
    (data_id : Option String) (opener_id : Option String) :
    Except PyErr JSchema := do
  let _ ← assertValidOpenerId opener_id
  let _ ← validateDataId table true data_id
  openerGetOpenDataParamsSchema table data_id

/-- Model of `CDSDataStore.open_data`. -/
def storeOpenData (table : ERA5Table) (api_version : ℕ) (data_id : String)
    (opener_id : Option String) (open_params : PyDict) :
    Except PyErr OpenOutcome := do
  let _ ← assertValidOpenerId opener_id
  let _ ← validateDataId table false (some data_id)
  openerOpenData table api_version data_id open_params

/-- Modelled from the spec: `DefaultSearchMixin.search_data` (external
xcube mixin, the `super().search_data` target) — "search_data (explicitly
unsupported — fails with NotImplemented)". -/
def defaultSearchMixinSearchData (_search_params : PyDict) :
    Except PyErr (List DescriptorCore) :=
  .error .notImplementedError

/-- Model of `CDSDataStore.search_data`: validate the data type, then delegate to
the (unsupported) default search. -/
def storeSearchData (data_type : DataTypeArg) (search_params : PyDict) :
    Except PyErr (List DescriptorCore) := do
  let _ ← validateDataType data_type
  defaultSearchMixinSearchData search_params

/-! ## Calendar arithmetic lemmas -/

theorem daysInMonth_cases (y m : ℕ) :
    (m = 2 ∧ (daysInMonth y m = 28 ∨ daysInMonth y m = 29))
    ∨ ((m = 1 ∨ m = 3 ∨ m = 5 ∨ m = 7 ∨ m = 8 ∨ m = 10 ∨ m = 12)
        ∧ daysInMonth y m = 31)
    ∨ ((m = 4 ∨ m = 6 ∨ m = 9 ∨ m = 11) ∧ daysInMonth y m = 30)
    ∨ ((m = 0 ∨ 13 ≤ m) ∧ daysInMonth y m = 0) := by
  rcases m with _|_|_|_|_|_|_|_|_|_|_|_|_|m <;>
    simp only [daysInMonth] <;> norm_num
  by_cases h : isLeap y <;> simp [h]

theorem daysInMonth_le (y m : ℕ) : daysInMonth y m ≤ 31 := by
  rcases daysInMonth_cases y m with h | h | h | h <;> omega

theorem daysInMonth_ge (y m : ℕ) (h1 : 1 ≤ m) (h2 : m ≤ 12) :
    28 ≤ daysInMonth y m := by
  rcases daysInMonth_cases y m with h | h | h | h <;> omega

theorem daysInMonth_year_indep (y y' m : ℕ) (hm : m ≠ 2) :
    daysInMonth y m = daysInMonth y' m := by
  rcases daysInMonth_cases y m with h | h | h | h <;>
    rcases daysInMonth_cases y' m with h' | h' | h' | h' <;> omega

theorem daysBeforeMonth_succ (y m : ℕ) :
    daysBeforeMonth y (m + 1) = daysBeforeMonth y m + daysInMonth y m := by
  unfold daysBeforeMonth
  rw [List.range_succ, List.map_append, List.sum_append]
  simp

theorem daysBeforeMonth_mono (y : ℕ) {m m' : ℕ} (h : m ≤ m') :
    daysBeforeMonth y m ≤ daysBeforeMonth y m' := by
  induction m' with
  | zero =>
    have hm : m = 0 := by omega
    subst hm; exact le_refl _
  | succ k ih =>
    rcases Nat.lt_or_ge m (k + 1) with hlt | hge
    · calc daysBeforeMonth y m ≤ daysBeforeMonth y k := ih (by omega)
        _ ≤ _ := by rw [daysBeforeMonth_succ]; omega
    · have hm : m = k + 1 := by omega
      subst hm; exact le_refl _

theorem daysBeforeMonth_one (y : ℕ) : daysBeforeMonth y 1 = 0 := rfl

theorem daysBeforeMonth_two (y : ℕ) : daysBeforeMonth y 2 = 31 := rfl

theorem daysInYear_eq (y : ℕ) : daysInYear y = 337 + daysInMonth y 2 := by
  have h : daysInYear y
      = 0 + (31 + (daysInMonth y 2 + (31 + (30 + (31 + (30 + (31 + (31
        + (30 + (31 + (30 + (31 + 0)))))))))))) := rfl
  omega

theorem daysInYear_le (y : ℕ) : daysInYear y ≤ 366 := by
  rcases daysInMonth_cases y 2 with h | h | h | h <;> rw [daysInYear_eq] <;> omega

theorem daysInYear_ge (y : ℕ) : 365 ≤ daysInYear y := by
  rcases daysInMonth_cases y 2 with h | h | h | h <;> rw [daysInYear_eq] <;> omega

theorem daysBeforeYear_succ (y : ℕ) :
    daysBeforeYear (y + 1) = daysBeforeYear y + daysInYear y := rfl

theorem daysBeforeYear_mono {y y' : ℕ} (h : y ≤ y') :
    daysBeforeYear y ≤ daysBeforeYear y' := by
  induction y' with
  | zero =>
    have hy : y = 0 := by omega
    subst hy; exact le_refl _
  | succ k ih =>
    rcases Nat.lt_or_ge y (k + 1) with hlt | hge
    · calc daysBeforeYear y ≤ daysBeforeYear k := ih (by omega)
        _ ≤ _ := by rw [daysBeforeYear_succ]; omega
    · have hy : y = k + 1 := by omega
      subst hy; exact le_refl _

/-- For a valid month/day pair, the day offset stays inside the year. -/
theorem dayOffset_lt_daysInYear (y m d : ℕ) (h1 : 1 ≤ m) (h2 : m ≤ 12)
    (h3 : 1 ≤ d) (h4 : d ≤ daysInMonth y m) :
    daysBeforeMonth y m + (d - 1) < daysInYear y := by
  have hs : daysBeforeMonth y m + daysInMonth y m = daysBeforeMonth y (m + 1) :=
    (daysBeforeMonth_succ y m).symm
  have hm : daysBeforeMonth y (m + 1) ≤ daysBeforeMonth y 13 :=
    daysBeforeMonth_mono y (by omega)
  show _ < daysBeforeMonth y 13
  omega

/-! ## Ordering: the lexicographic datetime order versus absolute indices -/

/-- Strict monotonicity of `dayNumber` in the date part. -/
theorem dayNumber_lt {a b : DT} (ha : a.Valid) (hb : b.Valid)
    (h : a.year < b.year ∨ (a.year = b.year ∧ (a.month < b.month
      ∨ (a.month = b.month ∧ a.day < b.day)))) :
    dayNumber a < dayNumber b := by
  obtain ⟨ha1, ha2, ha3, ha4, _, _⟩ := ha
  obtain ⟨hb1, hb2, hb3, hb4, _, _⟩ := hb
  unfold dayNumber
  rcases h with hy | ⟨hy, hm | ⟨hm, hd⟩⟩
  · have h1 : daysBeforeMonth a.year a.month + (a.day - 1)
        < daysInYear a.year :=
      dayOffset_lt_daysInYear _ _ _ ha1 ha2 ha3 ha4
    have h2 : daysBeforeYear a.year + daysInYear a.year
        = daysBeforeYear (a.year + 1) := (daysBeforeYear_succ a.year).symm
    have h3 : daysBeforeYear (a.year + 1) ≤ daysBeforeYear b.year :=
      daysBeforeYear_mono (by omega)
    omega
  · rw [hy]
    have h1 : daysBeforeMonth b.year a.month + daysInMonth b.year a.month
        = daysBeforeMonth b.year (a.month + 1) :=
      (daysBeforeMonth_succ b.year a.month).symm
    have h2 : daysBeforeMonth b.year (a.month + 1)
        ≤ daysBeforeMonth b.year b.month :=
      daysBeforeMonth_mono b.year (by omega)
    have h4 : a.day ≤ daysInMonth b.year a.month := by rw [← hy]; exact ha4
    omega
  · rw [hy, hm]
    omega

/-- Strict monotonicity of `toMin` along the Python datetime order, for
valid datetimes. -/
theorem toMin_lt_of_dtLt {a b : DT} (ha : a.Valid) (hb : b.Valid)
    (h : dtLt a b) : toMin a < toMin b := by
  have hah : a.hour < 24 := ha.2.2.2.2.1
  have hami : a.minute < 60 := ha.2.2.2.2.2
  rcases h with hy | ⟨hy, hm | ⟨hm, hd | ⟨hd, hh | ⟨hh, hmi⟩⟩⟩⟩
  · have : dayNumber a < dayNumber b := dayNumber_lt ha hb (Or.inl hy)
    unfold toMin; omega
  · have : dayNumber a < dayNumber b := dayNumber_lt ha hb (Or.inr ⟨hy, Or.inl hm⟩)
    unfold toMin; omega
  · have : dayNumber a < dayNumber b :=
      dayNumber_lt ha hb (Or.inr ⟨hy, Or.inr ⟨hm, hd⟩⟩)
    unfold toMin; omega
  · have : dayNumber a = dayNumber b := by unfold dayNumber; rw [hy, hm, hd]
    unfold toMin; omega
  · have : dayNumber a = dayNumber b := by unfold dayNumber; rw [hy, hm, hd]
    unfold toMin; omega

theorem dtLt_trichotomy (a b : DT) : dtLt a b ∨ a = b ∨ dtLt b a := by
  rcases a with ⟨ay, am, ad, ah, ami⟩
  rcases b with ⟨cy, cm, cd, ch, cmi⟩
  simp only [dtLt, DT.mk.injEq]
  omega

theorem toMin_le_of_dtLe {a b : DT} (ha : a.Valid) (hb : b.Valid)
    (h : dtLe a b) : toMin a ≤ toMin b := by
  rcases h with h | h
  · exact le_of_lt (toMin_lt_of_dtLt ha hb h)
  · rw [h]

theorem dtLe_of_toMin_le {a b : DT} (ha : a.Valid) (hb : b.Valid)
    (h : toMin a ≤ toMin b) : dtLe a b := by
  rcases dtLt_trichotomy a b with ht | ht | ht
  · exact Or.inl ht
  · exact Or.inr ht
  · exact absurd (toMin_lt_of_dtLt hb ha ht) (by omega)

/-- On valid datetimes, equal absolute minutes means equal values. -/
theorem dt_eq_of_toMin_eq {a b : DT} (ha : a.Valid) (hb : b.Valid)
    (h : toMin a = toMin b) : a = b := by
  rcases dtLt_trichotomy a b with ht | ht | ht
  · exact absurd (toMin_lt_of_dtLt ha hb ht) (by omega)
  · exact ht
  · exact absurd (toMin_lt_of_dtLt hb ha ht) (by omega)

/-- On valid datetimes, equal day numbers mean equal dates. -/
theorem date_eq_of_dayNumber_eq {a b : DT} (ha : a.Valid) (hb : b.Valid)
    (h : dayNumber a = dayNumber b) :
    a.year = b.year ∧ a.month = b.month ∧ a.day = b.day := by
  have tri : (a.year < b.year ∨ (a.year = b.year ∧ (a.month < b.month
        ∨ (a.month = b.month ∧ a.day < b.day))))
      ∨ (a.year = b.year ∧ a.month = b.month ∧ a.day = b.day)
      ∨ (b.year < a.year ∨ (b.year = a.year ∧ (b.month < a.month
        ∨ (b.month = a.month ∧ b.day < a.day)))) := by omega
  rcases tri with ht | ht | ht
  · exact absurd (dayNumber_lt ha hb ht) (by omega)
  · exact ht
  · exact absurd (dayNumber_lt hb ha ht) (by omega)

theorem minute_eq_toMin {a : DT} (ha : a.Valid) : a.minute = toMin a % 60 := by
  have h1 : a.minute < 60 := ha.2.2.2.2.2
  unfold toMin; omega

theorem hour_eq_toMin {a : DT} (ha : a.Valid) : a.hour = toMin a / 60 % 24 := by
  have h1 : a.minute < 60 := ha.2.2.2.2.2
  have h2 : a.hour < 24 := ha.2.2.2.2.1
  unfold toMin; omega

theorem dayNumber_eq_toMin {a : DT} (ha : a.Valid) :
    dayNumber a = toMin a / 1440 := by
  have h1 : a.minute < 60 := ha.2.2.2.2.2
  have h2 : a.hour < 24 := ha.2.2.2.2.1
  unfold toMin; omega

/-! ## Stepping functions: validity preservation and absolute-index laws -/

theorem succHour_spec {a : DT} (ha : a.Valid) :
    (succHour a).Valid ∧ toMin (succHour a) = toMin a + 60 := by
  obtain ⟨h1, h2, h3, h4, h5, h6⟩ := ha
  rcases a with ⟨y, m, d, h, mi⟩
  simp only at h1 h2 h3 h4 h5 h6
  simp only [succHour]
  by_cases c1 : h + 1 < 24
  · rw [if_pos c1]
    constructor
    · simp only [DT.Valid]; omega
    · simp only [toMin, dayNumber]; omega
  · rw [if_neg c1]
    by_cases c2 : d + 1 ≤ daysInMonth y m
    · rw [if_pos c2]
      constructor
      · simp only [DT.Valid]; omega
      · simp only [toMin, dayNumber]; omega
    · rw [if_neg c2]
      by_cases c3 : m + 1 ≤ 12
      · rw [if_pos c3]
        have hge : 28 ≤ daysInMonth y (m + 1) :=
          daysInMonth_ge y (m + 1) (by omega) (by omega)
        have hsucc := daysBeforeMonth_succ y m
        constructor
        · simp only [DT.Valid]; omega
        · simp only [toMin, dayNumber]; omega
      · rw [if_neg c3]
        have hm12 : m = 12 := by omega
        subst hm12
        have hge : 28 ≤ daysInMonth (y + 1) 1 :=
          daysInMonth_ge (y + 1) 1 (by omega) (by omega)
        have hy := daysBeforeYear_succ y
        have hiy : daysInYear y = daysBeforeMonth y 13 := rfl
        have hs12 := daysBeforeMonth_succ y 12
        norm_num at hs12
        have h0 := daysBeforeMonth_one (y + 1)
        constructor
        · simp only [DT.Valid]; omega
        · simp only [toMin, dayNumber]; omega

theorem succDay_spec {a : DT} (ha : a.Valid) :
    (succDay a).Valid ∧ dayNumber (succDay a) = dayNumber a + 1
      ∧ (succDay a).hour = a.hour ∧ (succDay a).minute = a.minute
      ∧ toMin (succDay a) = toMin a + 1440 := by
  obtain ⟨h1, h2, h3, h4, h5, h6⟩ := ha
  rcases a with ⟨y, m, d, h, mi⟩
  simp only at h1 h2 h3 h4 h5 h6
  simp only [succDay]
  by_cases c2 : d + 1 ≤ daysInMonth y m
  · rw [if_pos c2]
    refine ⟨?_, ?_, rfl, rfl, ?_⟩
    · simp only [DT.Valid]; omega
    · simp only [dayNumber]; omega
    · simp only [toMin, dayNumber]; omega
  · rw [if_neg c2]
    by_cases c3 : m + 1 ≤ 12
    · rw [if_pos c3]
      have hge : 28 ≤ daysInMonth y (m + 1) :=
        daysInMonth_ge y (m + 1) (by omega) (by omega)
      have hsucc := daysBeforeMonth_succ y m
      refine ⟨?_, ?_, rfl, rfl, ?_⟩
      · simp only [DT.Valid]; omega
      · simp only [dayNumber]; omega
      · simp only [toMin, dayNumber]; omega
    · rw [if_neg c3]
      have hm12 : m = 12 := by omega
      subst hm12
      have hge : 28 ≤ daysInMonth (y + 1) 1 :=
        daysInMonth_ge (y + 1) 1 (by omega) (by omega)
      have hy := daysBeforeYear_succ y
      have hiy : daysInYear y = daysBeforeMonth y 13 := rfl
      have hs12 := daysBeforeMonth_succ y 12
      norm_num at hs12
      have h0 := daysBeforeMonth_one (y + 1)
      refine ⟨?_, ?_, rfl, rfl, ?_⟩
      · simp only [DT.Valid]; omega
      · simp only [dayNumber]; omega
      · simp only [toMin, dayNumber]; omega

theorem succMonth_spec {a : DT} (ha : a.Valid) (hd : a.day = 1) :
    (succMonth a).Valid ∧ (succMonth a).day = 1
      ∧ (succMonth a).hour = a.hour ∧ (succMonth a).minute = a.minute
      ∧ monthsSince (succMonth a) = monthsSince a + 1
      ∧ dayNumber (succMonth a) = dayNumber a + daysInMonth a.year a.month := by
  obtain ⟨h1, h2, h3, h4, h5, h6⟩ := ha
  rcases a with ⟨y, m, d, h, mi⟩
  simp only at h1 h2 h3 h4 h5 h6 hd
  subst hd
  simp only [succMonth]
  by_cases c3 : m + 1 ≤ 12
  · rw [if_pos c3]
    have hge : 28 ≤ daysInMonth y (m + 1) :=
      daysInMonth_ge y (m + 1) (by omega) (by omega)
    have hsucc := daysBeforeMonth_succ y m
    refine ⟨?_, rfl, rfl, rfl, ?_, ?_⟩
    · simp only [DT.Valid]; omega
    · simp only [monthsSince]; omega
    · simp only [dayNumber]; omega
  · rw [if_neg c3]
    have hm12 : m = 12 := by omega
    subst hm12
    have hge : 28 ≤ daysInMonth (y + 1) 1 :=
      daysInMonth_ge (y + 1) 1 (by omega) (by omega)
    have hy := daysBeforeYear_succ y
    have hiy : daysInYear y = daysBeforeMonth y 13 := rfl
    have hs12 := daysBeforeMonth_succ y 12
    norm_num at hs12
    have h0 := daysBeforeMonth_one (y + 1)
    have h0' := daysBeforeMonth_one y
    refine ⟨?_, rfl, rfl, rfl, ?_, ?_⟩
    · simp only [DT.Valid]; omega
    · simp only [monthsSince]; omega
    · simp only [dayNumber]; omega

/-! ## Iterated stepping -/

theorem iterHour_spec (k : ℕ) {a : DT} (ha : a.Valid) :
    (succHour^[k] a).Valid ∧ toMin (succHour^[k] a) = toMin a + 60 * k := by
  induction k with
  | zero => simpa using ha
  | succ n ih =>
    rw [Function.iterate_succ_apply']
    obtain ⟨hv, ht⟩ := ih
    obtain ⟨hv', ht'⟩ := succHour_spec hv
    exact ⟨hv', by omega⟩

theorem iterDay_spec (k : ℕ) {a : DT} (ha : a.Valid) :
    (succDay^[k] a).Valid ∧ dayNumber (succDay^[k] a) = dayNumber a + k
      ∧ (succDay^[k] a).hour = a.hour ∧ (succDay^[k] a).minute = a.minute
      ∧ toMin (succDay^[k] a) = toMin a + 1440 * k := by
  induction k with
  | zero => simpa using ha
  | succ n ih =>
    rw [Function.iterate_succ_apply']
    obtain ⟨hv, hd, hh, hm, ht⟩ := ih
    obtain ⟨hv', hd', hh', hm', ht'⟩ := succDay_spec hv
    exact ⟨hv', by omega, by rw [hh', hh], by rw [hm', hm], by omega⟩

theorem iterMonth_spec (k : ℕ) {a : DT} (ha : a.Valid) (hd : a.day = 1) :
    (succMonth^[k] a).Valid ∧ (succMonth^[k] a).day = 1
      ∧ (succMonth^[k] a).hour = a.hour ∧ (succMonth^[k] a).minute = a.minute
      ∧ monthsSince (succMonth^[k] a) = monthsSince a + k := by
  induction k with
  | zero => simpa using ⟨ha, hd⟩
  | succ n ih =>
    rw [Function.iterate_succ_apply']
    obtain ⟨hv, hd1, hh, hm, hms⟩ := ih
    obtain ⟨hv', hd', hh', hm', hms', _⟩ := succMonth_spec hv hd1
    refine ⟨hv', hd', by rw [hh', hh], by rw [hm', hm], by rw [hms', hms]; push_cast; ring⟩

theorem iterMonth_dayNumber_upper (k : ℕ) {a : DT} (ha : a.Valid)
    (hd : a.day = 1) :
    dayNumber (succMonth^[k] a) ≤ dayNumber a + 31 * k := by
  induction k with
  | zero => simp
  | succ n ih =>
    rw [Function.iterate_succ_apply']
    obtain ⟨hv, hd1, _, _, _⟩ := iterMonth_spec n ha hd
    obtain ⟨_, _, _, _, _, hdn⟩ := succMonth_spec hv hd1
    have hle := daysInMonth_le (succMonth^[n] a).year (succMonth^[n] a).month
    omega

/-- Shifting the year changes `daysBeforeMonth` only through February. -/
theorem daysBeforeMonth_year_shift {m : ℕ} (h3 : 3 ≤ m) (y y' : ℕ) :
    daysBeforeMonth y m + daysInMonth y' 2
      = daysBeforeMonth y' m + daysInMonth y 2 := by
  induction m, h3 using Nat.le_induction with
  | base =>
    have e1 : daysBeforeMonth y 3 = daysBeforeMonth y 2 + daysInMonth y 2 := by
      have h := daysBeforeMonth_succ y 2
      norm_num at h
      exact h
    have e2 : daysBeforeMonth y' 3 = daysBeforeMonth y' 2 + daysInMonth y' 2 := by
      have h := daysBeforeMonth_succ y' 2
      norm_num at h
      exact h
    have e3 := daysBeforeMonth_two y
    have e4 := daysBeforeMonth_two y'
    omega
  | succ m hm ih =>
    have e1 := daysBeforeMonth_succ y m
    have e2 := daysBeforeMonth_succ y' m
    have e3 : daysInMonth y m = daysInMonth y' m :=
      daysInMonth_year_indep y y' m (by omega)
    omega

/-- Twelve monthly steps never cover more than 366 days (the exact length
of the enclosing twelve-month window). -/
theorem iterMonth_dayNumber_le_366 {k : ℕ} (hk : k ≤ 12) {a : DT}
    (ha : a.Valid) (hd : a.day = 1) :
    dayNumber (succMonth^[k] a) ≤ dayNumber a + 366 := by
  rcases Nat.lt_or_ge k 12 with hlt | hge
  · have h := iterMonth_dayNumber_upper k ha hd
    omega
  · have hk12 : k = 12 := by omega
    subst hk12
    obtain ⟨hv, hd1, _, _, hms⟩ := iterMonth_spec 12 ha hd
    set b := succMonth^[12] a with hb
    have hby : b.year = a.year + 1 ∧ b.month = a.month := by
      have hb1 : 1 ≤ b.month := hv.1
      have hb2 : b.month ≤ 12 := hv.2.1
      have ha1 : 1 ≤ a.month := ha.1
      have ha2 : a.month ≤ 12 := ha.2.1
      simp only [monthsSince] at hms
      omega
    have hdnb : dayNumber b
        = daysBeforeYear (b.year) + daysBeforeMonth b.year b.month := by
      unfold dayNumber
      omega
    have hdna : dayNumber a
        = daysBeforeYear (a.year) + daysBeforeMonth a.year a.month := by
      unfold dayNumber
      omega
    have hyy := daysBeforeYear_succ a.year
    have hiy := daysInYear_eq a.year
    rcases Nat.lt_or_ge a.month 3 with hm2 | hm3
    · have ha1 : 1 ≤ a.month := ha.1
      have heq : daysBeforeMonth (a.year + 1) a.month
          = daysBeforeMonth a.year a.month := by
        rcases Nat.eq_or_lt_of_le ha1 with h1 | h1
        · rw [← h1, daysBeforeMonth_one, daysBeforeMonth_one]
        · have h2 : a.month = 2 := by omega
          rw [h2, daysBeforeMonth_two, daysBeforeMonth_two]
      have hfe : daysInMonth a.year 2 ≤ 29 := by
        rcases daysInMonth_cases a.year 2 with h | h | h | h <;> omega
      rw [hdnb, hby.1, hby.2, heq, hdna]
      omega
    · have hshift := daysBeforeMonth_year_shift hm3 (a.year + 1) a.year
      have hfe : daysInMonth (a.year + 1) 2 ≤ 29 := by
        rcases daysInMonth_cases (a.year + 1) 2 with h | h | h | h <;> omega
      rw [hdnb, hby.1, hby.2, hdna]
      omega

/-! ## Recurrence-rule enumeration: membership -/

theorem mem_rruleList (step : DT → DT) (until_ : DT) :
    ∀ (fuel k : ℕ) (dt : DT), k < fuel →
      (∀ j, j ≤ k → dtLe (step^[j] dt) until_) →
      step^[k] dt ∈ rruleList step fuel dt until_ := by
  intro fuel
  induction fuel with
  | zero => intro k dt hk _; omega
  | succ n ih =>
    intro k dt hk hall
    have h0 : dtLe dt until_ := by simpa using hall 0 (Nat.zero_le k)
    rw [rruleList, if_pos h0]
    cases k with
    | zero => simp
    | succ j =>
      have hmem : step^[j] (step dt) ∈ rruleList step n (step dt) until_ := by
        refine ih j (step dt) (by omega) ?_
        intro j' hj'
        rw [← Function.iterate_succ_apply]
        exact hall (j' + 1) (by omega)
      rw [Function.iterate_succ_apply]
      exact List.mem_cons_of_mem _ hmem

/-! ## sorted(set(...)) -/

theorem mem_sortedSet {x : ℤ} {xs : List ℤ} : x ∈ sortedSet xs ↔ x ∈ xs := by
  unfold sortedSet
  rw [(List.perm_insertionSort (· ≤ ·) xs.dedup).mem_iff, List.mem_dedup]

theorem sortedSet_sorted (xs : List ℤ) : (sortedSet xs).Sorted (· < ·) := by
  have hle : (sortedSet xs).Sorted (· ≤ ·) :=
    List.sorted_insertionSort (· ≤ ·) xs.dedup
  have hnd : (sortedSet xs).Nodup :=
    ((List.perm_insertionSort (· ≤ ·) xs.dedup).nodup_iff).2 (List.nodup_dedup xs)
  exact List.Pairwise.imp₂ (fun a b hab hne => lt_of_le_of_ne hab hne) hle hnd

/-! ## The 101-day window covers every day-of-month value -/

/-- Packaging of the `DT.Valid` invariant for literal constructors. -/
theorem mk_valid (y m d h mi : ℕ) (h1 : 1 ≤ m) (h2 : m ≤ 12) (h3 : 1 ≤ d)
    (h4 : d ≤ daysInMonth y m) (h5 : h < 24) (h6 : mi < 60) :
    (⟨y, m, d, h, mi⟩ : DT).Valid := ⟨h1, h2, h3, h4, h5, h6⟩

theorem succDay_iter_within {a : DT} (_ha : a.Valid) :
    ∀ j, a.day + j ≤ daysInMonth a.year a.month →
      succDay^[j] a = ⟨a.year, a.month, a.day + j, a.hour, a.minute⟩ := by
  intro j
  induction j with
  | zero => intro _; simp
  | succ n ih =>
    intro hj
    rw [Function.iterate_succ_apply', ih (by omega)]
    simp only [succDay]
    rw [if_pos (by omega : a.day + n + 1 ≤ daysInMonth a.year a.month)]
    rw [Nat.add_assoc]

theorem succDay_firstOfNext {a : DT} (ha : a.Valid) :
    succDay^[daysInMonth a.year a.month - a.day + 1] a
      = if a.month + 1 ≤ 12 then
          (⟨a.year, a.month + 1, 1, a.hour, a.minute⟩ : DT)
        else ⟨a.year + 1, 1, 1, a.hour, a.minute⟩ := by
  obtain ⟨h1, h2, h3, h4, h5, h6⟩ := ha
  rw [show daysInMonth a.year a.month - a.day + 1
      = (daysInMonth a.year a.month - a.day) + 1 from rfl,
    Function.iterate_succ_apply',
    succDay_iter_within ⟨h1, h2, h3, h4, h5, h6⟩ _ (by omega)]
  simp only [succDay]
  rw [if_neg (by omega)]

/-- A month with fewer than 31 days is followed by a 31-day month. -/
theorem daysInMonth_next31 {y m : ℕ} (h1 : 1 ≤ m) (h2 : m ≤ 12)
    (hshort : daysInMonth y m < 31) :
    m + 1 ≤ 12 ∧ daysInMonth y (m + 1) = 31 := by
  rcases daysInMonth_cases y m with h | h | h | h
  · rcases daysInMonth_cases y (m + 1) with h' | h' | h' | h' <;> omega
  · omega
  · rcases daysInMonth_cases y (m + 1) with h' | h' | h' | h' <;> omega
  · omega

/-- From the first of any month, at most 61 daily steps reach any
day-of-month value `v ≤ 31`. -/
theorem dayWindow_fromFirst {b : DT} (hb : b.Valid) (hd : b.day = 1)
    {v : ℕ} (hv1 : 1 ≤ v) (hv31 : v ≤ 31) :
    ∃ k, k ≤ 61 ∧ (succDay^[k] b).day = v := by
  have hdimle := daysInMonth_le b.year b.month
  rcases Nat.lt_or_ge (daysInMonth b.year b.month) v with hshort | hlong
  · obtain ⟨hm12, h31⟩ := daysInMonth_next31 (y := b.year) hb.1 hb.2.1 (by omega)
    have hfirst := succDay_firstOfNext hb
    rw [hd, if_pos hm12] at hfirst
    have hb2 : (⟨b.year, b.month + 1, 1, b.hour, b.minute⟩ : DT).Valid :=
      mk_valid _ _ _ _ _ (by omega) hm12 (by omega) (by omega)
        hb.2.2.2.2.1 hb.2.2.2.2.2
    refine ⟨(v - 1) + (daysInMonth b.year b.month - 1 + 1), by omega, ?_⟩
    rw [Function.iterate_add_apply, hfirst]
    have hwithin := succDay_iter_within hb2 (v - 1)
      (by show 1 + (v - 1) ≤ daysInMonth b.year (b.month + 1); omega)
    rw [hwithin]
    show 1 + (v - 1) = v
    omega
  · refine ⟨v - 1, by omega, ?_⟩
    have hw := succDay_iter_within hb (v - 1) (by omega)
    rw [hw]
    show b.day + (v - 1) = v
    omega

/-- Any 101-step daily window starting at a valid date reaches every
day-of-month value `v ≤ 31` within at most 92 steps. -/
theorem dayWindow {a : DT} (ha : a.Valid) {v : ℕ} (hv1 : 1 ≤ v)
    (hv31 : v ≤ 31) :
    ∃ k, k ≤ 100 ∧ (succDay^[k] a).day = v := by
  have hdimle := daysInMonth_le a.year a.month
  have hfirst := succDay_firstOfNext ha
  have hfv : (succDay^[daysInMonth a.year a.month - a.day + 1] a).Valid :=
    (iterDay_spec _ ha).1
  have hfd : (succDay^[daysInMonth a.year a.month - a.day + 1] a).day = 1 := by
    rw [hfirst]
    split_ifs <;> rfl
  obtain ⟨k, hk61, hkday⟩ := dayWindow_fromFirst hfv hfd hv1 hv31
  refine ⟨k + (daysInMonth a.year a.month - a.day + 1), by omega, ?_⟩
  rw [Function.iterate_add_apply]
  exact hkday

/-! ## Covering property of convert_time_range: hours -/

theorem dtLe_minDT {x a b : DT} (hx : x.Valid) (haa : a.Valid) (hbb : b.Valid)
    (h1 : toMin x ≤ toMin a) (h2 : toMin x ≤ toMin b) : dtLe x (minDT a b) := by
  unfold minDT
  split_ifs with h
  · exact dtLe_of_toMin_le hx haa h1
  · exact dtLe_of_toMin_le hx hbb h2

theorem year_le_of_dtLe {a b : DT} (h : dtLe a b) : a.year ≤ b.year := by
  rcases h with h | h
  · rcases h with hy | ⟨hy, _⟩ <;> omega
  · rw [h]

theorem monthsSince_le_of_dtLe {a b : DT} (ha1 : 1 ≤ a.month)
    (ha2 : a.month ≤ 12) (hb1 : 1 ≤ b.month) (hb2 : b.month ≤ 12)
    (h : dtLe a b) : monthsSince a ≤ monthsSince b := by
  rcases h with h | h
  · simp only [monthsSince]
    rcases h with hy | ⟨hy, hm | ⟨hm, _⟩⟩ <;> omega
  · rw [h]

theorem dayNumber_le_of_monthsSince_le {a b : DT} (hav : a.Valid)
    (hbv : b.Valid) (hda : a.day = 1) (h : monthsSince a ≤ monthsSince b) :
    dayNumber a ≤ dayNumber b := by
  have ha1 := hav.1
  have ha2 := hav.2.1
  have hb1 := hbv.1
  have hb2 := hbv.2.1
  have hbd := hbv.2.2.1
  simp only [monthsSince] at h
  have hcase : a.year < b.year ∨ (a.year = b.year ∧ a.month < b.month)
      ∨ (a.year = b.year ∧ a.month = b.month) := by omega
  rcases hcase with hy | ⟨hy, hm⟩ | ⟨hy, hm⟩
  · exact le_of_lt (dayNumber_lt hav hbv (Or.inl hy))
  · exact le_of_lt (dayNumber_lt hav hbv (Or.inr ⟨hy, Or.inl hm⟩))
  · unfold dayNumber
    rw [hy, hm]
    omega

theorem month_eq_monthsSince {a : DT} (h1 : 1 ≤ a.month) (h2 : a.month ≤ 12) :
    (a.month : ℤ) = monthsSince a % 12 + 1 := by
  simp only [monthsSince]
  omega

/-- Every hourly occurrence with index offset `k ≤ 24` that stays below the
end sentinel is enumerated, so its hour value is selected. -/
theorem hour_elt_mem {s e : DT} (hs : s.Valid) (he : e.Valid) {k : ℕ}
    (hcap : k ≤ 24)
    (hend : dayNumber s * 24 + s.hour + k ≤ dayNumber e * 24 + e.hour) :
    ((succHour^[k] (⟨s.year, s.month, s.day, s.hour, 0⟩ : DT)).hour : ℤ)
      ∈ (convert_time_range s e).hours := by
  have h0v := mk_valid s.year s.month s.day s.hour 0 hs.1 hs.2.1 hs.2.2.1
    hs.2.2.2.1 hs.2.2.2.2.1 (by omega)
  have h1v := mk_valid e.year e.month e.day e.hour 59 he.1 he.2.1 he.2.2.1
    he.2.2.2.1 he.2.2.2.2.1 (by omega)
  have hmax := iterHour_spec 24 h0v
  simp only [convert_time_range]
  rw [mem_sortedSet]
  apply List.mem_map_of_mem
  apply mem_rruleList succHour _ 25 k _ (by omega)
  intro j hj
  have hjspec := iterHour_spec j h0v
  apply dtLe_minDT hjspec.1 h1v hmax.1
  · have et : toMin (⟨s.year, s.month, s.day, s.hour, 0⟩ : DT)
        = (dayNumber s * 24 + s.hour) * 60 + 0 := rfl
    have et1 : toMin (⟨e.year, e.month, e.day, e.hour, 59⟩ : DT)
        = (dayNumber e * 24 + e.hour) * 60 + 59 := rfl
    rw [hjspec.2]
    omega
  · show toMin _ ≤ toMin (addHours 24 _)
    have ha24 : addHours 24 (⟨s.year, s.month, s.day, s.hour, 0⟩ : DT)
        = succHour^[24] (⟨s.year, s.month, s.day, s.hour, 0⟩ : DT) := rfl
    rw [ha24, hmax.2, hjspec.2]
    omega

theorem hours_covering {s e t : DT} (hs : s.Valid) (he : e.Valid)
    (ht : t.Valid) (hst : dtLe s t) (hte : dtLe t e) :
    (t.hour : ℤ) ∈ (convert_time_range s e).hours := by
  have h0v := mk_valid s.year s.month s.day s.hour 0 hs.1 hs.2.1 hs.2.2.1
    hs.2.2.2.1 hs.2.2.2.2.1 (by omega)
  have hsmin : s.minute < 60 := hs.2.2.2.2.2
  have htmin : t.minute < 60 := ht.2.2.2.2.2
  have htho : t.hour < 24 := ht.2.2.2.2.1
  have hemin : e.minute < 60 := he.2.2.2.2.2
  have est : toMin s ≤ toMin t := toMin_le_of_dtLe hs ht hst
  have ete : toMin t ≤ toMin e := toMin_le_of_dtLe ht he hte
  have ets : toMin s = (dayNumber s * 24 + s.hour) * 60 + s.minute := rfl
  have ett : toMin t = (dayNumber t * 24 + t.hour) * 60 + t.minute := rfl
  have etee : toMin e = (dayNumber e * 24 + e.hour) * 60 + e.minute := rfl
  have hST : dayNumber s * 24 + s.hour ≤ dayNumber t * 24 + t.hour := by omega
  have hTE : dayNumber t * 24 + t.hour ≤ dayNumber e * 24 + e.hour := by omega
  rcases Nat.lt_or_ge (dayNumber t * 24 + t.hour)
      (dayNumber s * 24 + s.hour + 25) with hsmall | hbig
  · set k := dayNumber t * 24 + t.hour - (dayNumber s * 24 + s.hour) with hk
    have hmem := hour_elt_mem hs he (k := k) (by omega) (by omega)
    have hspec := iterHour_spec k h0v
    have heq : (succHour^[k] (⟨s.year, s.month, s.day, s.hour, 0⟩ : DT)).hour
        = t.hour := by
      have hh1 := hour_eq_toMin hspec.1
      have hh2 := hour_eq_toMin ht
      have et0 : toMin (⟨s.year, s.month, s.day, s.hour, 0⟩ : DT)
          = (dayNumber s * 24 + s.hour) * 60 + 0 := rfl
      rw [hh1, hh2, hspec.2]
      omega
    rw [← heq]
    exact hmem
  · set k := (dayNumber t * 24 + t.hour - (dayNumber s * 24 + s.hour)) % 24
      with hk
    have hk23 : k ≤ 23 := by omega
    have hmem := hour_elt_mem hs he (k := k) (by omega) (by omega)
    have hspec := iterHour_spec k h0v
    have heq : (succHour^[k] (⟨s.year, s.month, s.day, s.hour, 0⟩ : DT)).hour
        = t.hour := by
      have hh1 := hour_eq_toMin hspec.1
      have hh2 := hour_eq_toMin ht
      have et0 : toMin (⟨s.year, s.month, s.day, s.hour, 0⟩ : DT)
          = (dayNumber s * 24 + s.hour) * 60 + 0 := rfl
      rw [hh1, hh2, hspec.2]
      omega
    rw [← heq]
    exact hmem

/-! ## Covering property of convert_time_range: days, months, years -/

theorem day_elt_mem {s e : DT} (hs : s.Valid) (he : e.Valid) {k : ℕ}
    (hcap : k ≤ 100) (hend : dayNumber s + k ≤ dayNumber e) :
    ((succDay^[k] (⟨s.year, s.month, s.day, 0, 1⟩ : DT)).day : ℤ)
      ∈ (convert_time_range s e).days := by
  have h0v := mk_valid s.year s.month s.day 0 1 hs.1 hs.2.1 hs.2.2.1
    hs.2.2.2.1 (by omega) (by omega)
  have h1v := mk_valid e.year e.month e.day 23 59 he.1 he.2.1 he.2.2.1
    he.2.2.2.1 (by omega) (by omega)
  have hmax := iterDay_spec 100 h0v
  simp only [convert_time_range]
  rw [mem_sortedSet]
  apply List.mem_map_of_mem
  apply mem_rruleList succDay _ 101 k _ (by omega)
  intro j hj
  have hjspec := iterDay_spec j h0v
  apply dtLe_minDT hjspec.1 h1v hmax.1
  · have et : toMin (⟨s.year, s.month, s.day, 0, 1⟩ : DT)
        = (dayNumber s * 24 + 0) * 60 + 1 := rfl
    have et1 : toMin (⟨e.year, e.month, e.day, 23, 59⟩ : DT)
        = (dayNumber e * 24 + 23) * 60 + 59 := rfl
    rw [hjspec.2.2.2.2]
    omega
  · show toMin _ ≤ toMin (addDays 100 _)
    have ha100 : addDays 100 (⟨s.year, s.month, s.day, 0, 1⟩ : DT)
        = succDay^[100] (⟨s.year, s.month, s.day, 0, 1⟩ : DT) := rfl
    rw [ha100, hmax.2.2.2.2, hjspec.2.2.2.2]
    omega

theorem days_covering {s e t : DT} (hs : s.Valid) (he : e.Valid)
    (ht : t.Valid) (hst : dtLe s t) (hte : dtLe t e) :
    (t.day : ℤ) ∈ (convert_time_range s e).days := by
  have h0v := mk_valid s.year s.month s.day 0 1 hs.1 hs.2.1 hs.2.2.1
    hs.2.2.2.1 (by omega) (by omega)
  have est : toMin s ≤ toMin t := toMin_le_of_dtLe hs ht hst
  have ete : toMin t ≤ toMin e := toMin_le_of_dtLe ht he hte
  have hds := dayNumber_eq_toMin hs
  have hdt := dayNumber_eq_toMin ht
  have hde := dayNumber_eq_toMin he
  have hST : dayNumber s ≤ dayNumber t := by omega
  have hTE : dayNumber t ≤ dayNumber e := by omega
  have hd0 : dayNumber (⟨s.year, s.month, s.day, 0, 1⟩ : DT) = dayNumber s := rfl
  rcases Nat.lt_or_ge (dayNumber t) (dayNumber s + 101) with hsmall | hbig
  · set k := dayNumber t - dayNumber s with hk
    have hmem := day_elt_mem hs he (k := k) (by omega) (by omega)
    have hspec := iterDay_spec k h0v
    have hdn : dayNumber (succDay^[k] (⟨s.year, s.month, s.day, 0, 1⟩ : DT))
        = dayNumber t := by
      rw [hspec.2.1, hd0]
      omega
    obtain ⟨_, _, heqd⟩ := date_eq_of_dayNumber_eq hspec.1 ht hdn
    rw [← heqd]
    exact hmem
  · obtain ⟨k, hk100, hkday⟩ := dayWindow h0v (v := t.day) ht.2.2.1
      (le_trans ht.2.2.2.1 (daysInMonth_le t.year t.month))
    have hmem := day_elt_mem hs he (k := k) hk100 (by omega)
    rw [← hkday]
    exact hmem

theorem month_elt_mem {s e : DT} (hs : s.Valid) (he : e.Valid) {k : ℕ}
    (hcap : k ≤ 12) (hend : monthsSince s + k ≤ monthsSince e) :
    ((succMonth^[k] (⟨s.year, s.month, 1, 0, 0⟩ : DT)).month : ℤ)
      ∈ (convert_time_range s e).months := by
  have hge0 := daysInMonth_ge s.year s.month hs.1 hs.2.1
  have hge1 := daysInMonth_ge e.year e.month he.1 he.2.1
  have h0v := mk_valid s.year s.month 1 0 0 hs.1 hs.2.1 (by omega) (by omega)
    (by omega) (by omega)
  have h1v := mk_valid e.year e.month 28 0 0 he.1 he.2.1 (by omega) (by omega)
    (by omega) (by omega)
  have hmax := iterDay_spec 366 h0v
  simp only [convert_time_range]
  rw [mem_sortedSet]
  apply List.mem_map_of_mem
  apply mem_rruleList succMonth _ 14 k _ (by omega)
  intro j hj
  have hjspec := iterMonth_spec j h0v rfl
  apply dtLe_minDT hjspec.1 h1v hmax.1
  · -- below the month sentinel of the end point
    have hdn : dayNumber (succMonth^[j] (⟨s.year, s.month, 1, 0, 0⟩ : DT))
        ≤ dayNumber (⟨e.year, e.month, 28, 0, 0⟩ : DT) := by
      have hd1 : dayNumber (⟨e.year, e.month, 1, 0, 0⟩ : DT)
          ≤ dayNumber (⟨e.year, e.month, 28, 0, 0⟩ : DT) := by
        simp only [dayNumber]
        omega
      refine le_trans (dayNumber_le_of_monthsSince_le hjspec.1
        (mk_valid e.year e.month 1 0 0 he.1 he.2.1 (by omega) (by omega)
          (by omega) (by omega)) hjspec.2.1 ?_) hd1
      have hms0 : monthsSince (⟨s.year, s.month, 1, 0, 0⟩ : DT)
          = monthsSince s := rfl
      have hms1 : monthsSince (⟨e.year, e.month, 1, 0, 0⟩ : DT)
          = monthsSince e := rfl
      rw [hjspec.2.2.2.2, hms0, hms1]
      omega
    have hth : toMin (succMonth^[j] (⟨s.year, s.month, 1, 0, 0⟩ : DT))
        = (dayNumber (succMonth^[j] (⟨s.year, s.month, 1, 0, 0⟩ : DT)) * 24
            + (succMonth^[j] (⟨s.year, s.month, 1, 0, 0⟩ : DT)).hour) * 60
          + (succMonth^[j] (⟨s.year, s.month, 1, 0, 0⟩ : DT)).minute := rfl
    have hth1 : toMin (⟨e.year, e.month, 28, 0, 0⟩ : DT)
        = (dayNumber (⟨e.year, e.month, 28, 0, 0⟩ : DT) * 24 + 0) * 60 + 0 := rfl
    have hhe : (succMonth^[j] (⟨s.year, s.month, 1, 0, 0⟩ : DT)).hour = 0 :=
      hjspec.2.2.1
    have hme : (succMonth^[j] (⟨s.year, s.month, 1, 0, 0⟩ : DT)).minute = 0 :=
      hjspec.2.2.2.1
    omega
  · show toMin _ ≤ toMin (addDays 366 _)
    have ha366 : addDays 366 (⟨s.year, s.month, 1, 0, 0⟩ : DT)
        = succDay^[366] (⟨s.year, s.month, 1, 0, 0⟩ : DT) := rfl
    have hdn : dayNumber (succMonth^[j] (⟨s.year, s.month, 1, 0, 0⟩ : DT))
        ≤ dayNumber (⟨s.year, s.month, 1, 0, 0⟩ : DT) + 366 :=
      iterMonth_dayNumber_le_366 (by omega) h0v rfl
    have hth : toMin (succMonth^[j] (⟨s.year, s.month, 1, 0, 0⟩ : DT))
        = (dayNumber (succMonth^[j] (⟨s.year, s.month, 1, 0, 0⟩ : DT)) * 24
            + (succMonth^[j] (⟨s.year, s.month, 1, 0, 0⟩ : DT)).hour) * 60
          + (succMonth^[j] (⟨s.year, s.month, 1, 0, 0⟩ : DT)).minute := rfl
    have hth0 : toMin (⟨s.year, s.month, 1, 0, 0⟩ : DT)
        = (dayNumber (⟨s.year, s.month, 1, 0, 0⟩ : DT) * 24 + 0) * 60 + 0 := rfl
    have hhe : (succMonth^[j] (⟨s.year, s.month, 1, 0, 0⟩ : DT)).hour = 0 :=
      hjspec.2.2.1
    have hme : (succMonth^[j] (⟨s.year, s.month, 1, 0, 0⟩ : DT)).minute = 0 :=
      hjspec.2.2.2.1
    rw [ha366, hmax.2.2.2.2]
    omega

theorem months_covering {s e t : DT} (hs : s.Valid) (he : e.Valid)
    (ht : t.Valid) (hst : dtLe s t) (hte : dtLe t e) :
    (t.month : ℤ) ∈ (convert_time_range s e).months := by
  have hge0 := daysInMonth_ge s.year s.month hs.1 hs.2.1
  have h0v := mk_valid s.year s.month 1 0 0 hs.1 hs.2.1 (by omega) (by omega)
    (by omega) (by omega)
  have hmsST : monthsSince s ≤ monthsSince t :=
    monthsSince_le_of_dtLe hs.1 hs.2.1 ht.1 ht.2.1 hst
  have hmsTE : monthsSince t ≤ monthsSince e :=
    monthsSince_le_of_dtLe ht.1 ht.2.1 he.1 he.2.1 hte
  have hms0 : monthsSince (⟨s.year, s.month, 1, 0, 0⟩ : DT) = monthsSince s := rfl
  rcases Int.lt_or_le (monthsSince e) (monthsSince s + 13) with hsmall | hbig
  · set k := (monthsSince t - monthsSince s).toNat with hk
    have hkz : (k : ℤ) = monthsSince t - monthsSince s := by omega
    have hmem := month_elt_mem hs he (k := k) (by omega) (by omega)
    have hspec := iterMonth_spec k h0v rfl
    have heq : ((succMonth^[k] (⟨s.year, s.month, 1, 0, 0⟩ : DT)).month : ℤ)
        = (t.month : ℤ) := by
      have hm1 := month_eq_monthsSince hspec.1.1 hspec.1.2.1
      have hm2 := month_eq_monthsSince ht.1 ht.2.1
      rw [hm1, hm2, hspec.2.2.2.2, hms0]
      omega
    rw [← heq]
    exact hmem
  · set k := ((monthsSince t - monthsSince s) % 12).toNat with hk
    have hkz : (k : ℤ) = (monthsSince t - monthsSince s) % 12 := by omega
    have hk11 : k ≤ 11 := by omega
    have hmem := month_elt_mem hs he (k := k) (by omega) (by omega)
    have hspec := iterMonth_spec k h0v rfl
    have heq : ((succMonth^[k] (⟨s.year, s.month, 1, 0, 0⟩ : DT)).month : ℤ)
        = (t.month : ℤ) := by
      have hm1 := month_eq_monthsSince hspec.1.1 hspec.1.2.1
      have hm2 := month_eq_monthsSince ht.1 ht.2.1
      rw [hm1, hm2, hspec.2.2.2.2, hms0]
      omega
    rw [← heq]
    exact hmem

theorem years_covering {s e t : DT} (hst : dtLe s t) (hte : dtLe t e) :
    (t.year : ℤ) ∈ (convert_time_range s e).years := by
  have h1 : s.year ≤ t.year := year_le_of_dtLe hst
  have h2 : t.year ≤ e.year := year_le_of_dtLe hte
  simp only [convert_time_range]
  refine List.mem_map.2 ⟨t.year - s.year, List.mem_range.2 (by omega), ?_⟩
  have h3 : s.year + (t.year - s.year) = t.year := by omega
  omega

theorem years_sorted (s e : DT) :
    ((convert_time_range s e).years).Sorted (· < ·) := by
  simp only [convert_time_range]
  refine List.Pairwise.map _ (fun a b hab => ?_) (List.pairwise_lt_range _)
  show ((s.year + a : ℕ) : ℤ) < ((s.year + b : ℕ) : ℤ)
  omega

/-! ## Dictionary and bind lemmas -/

@[simp]
theorem pyBind_ok {α β : Type} (x : α) (f : α → Except PyErr β) :
    (Except.ok x >>= f) = f x := rfl

@[simp]
theorem pyBind_error {α β : Type} (e : PyErr) (f : α → Except PyErr β) :
    ((Except.error e : Except PyErr α) >>= f) = Except.error e := rfl

theorem sdictGet_set_self {α : Type} (d : SDict α) (k : String) (v : α) :
    sdictGet (sdictSet d k v) k = some v := by
  induction d with
  | nil => simp [sdictSet, sdictGet]
  | cons kv rest ih =>
    by_cases h : kv.1 = k
    · simp [sdictSet, sdictGet, h]
    · simp [sdictSet, sdictGet, h, ih]

theorem sdictGet_set_ne {α : Type} (d : SDict α) (k k' : String) (v : α)
    (h : k ≠ k') : sdictGet (sdictSet d k v) k' = sdictGet d k' := by
  induction d with
  | nil => simp [sdictSet, sdictGet, h]
  | cons kv rest ih =>
    by_cases hk : kv.1 = k
    · simp [sdictSet, sdictGet, hk, h]
    · simp only [sdictSet, hk, if_false, sdictGet]
      by_cases hk' : kv.1 = k'
      · simp [hk']
      · simp [hk', ih]

theorem dictItem_set_ne (d : PyDict) (k k' : String) (v : PyVal)
    (h : k ≠ k') : dictItem (sdictSet d k v) k' = dictItem d k' := by
  unfold dictItem
  rw [sdictGet_set_ne d k k' v h]

theorem sdictGet_some_mem_keys {α : Type} {d : SDict α} {k : String} {v : α}
    (h : sdictGet d k = some v) : k ∈ sdictKeys d := by
  induction d with
  | nil => simp [sdictGet] at h
  | cons kv rest ih =>
    by_cases hk : kv.1 = k
    · simp [sdictKeys, hk]
    · simp only [sdictGet, hk, if_false] at h
      simp [sdictKeys]
      right
      have := ih h
      simpa [sdictKeys] using this

theorem sdictGet_eq_none_of_not_mem {α : Type} {d : SDict α} {k : String}
    (h : k ∉ sdictKeys d) : sdictGet d k = none := by
  induction d with
  | nil => rfl
  | cons kv rest ih =>
    simp only [sdictKeys, List.map_cons, List.mem_cons] at h
    push_neg at h
    have hne : kv.1 ≠ k := fun e => h.1 e.symm
    obtain ⟨k₀, v₀⟩ := kv
    simp only [sdictGet, if_neg hne]
    exact ih (by simpa [sdictKeys] using h.2)

theorem sdictGet_update {α : Type} (d : SDict α) (e : SDict α) (k : String)
    (hnd : (e.map Prod.fst).Nodup) :
    sdictGet (sdictUpdate d e) k
      = match sdictGet e k with
        | some v => some v
        | none => sdictGet d k := by
  induction e generalizing d with
  | nil => simp [sdictUpdate, sdictGet]
  | cons kv rest ih =>
    simp only [List.map_cons, List.nodup_cons] at hnd
    have hstep : sdictUpdate d (kv :: rest) = sdictUpdate (sdictSet d kv.1 kv.2) rest := rfl
    rw [hstep, ih _ hnd.2]
    by_cases hk : kv.1 = k
    · subst hk
      have hnone : sdictGet rest kv.1 = none :=
        sdictGet_eq_none_of_not_mem (by simpa [sdictKeys] using hnd.1)
      rw [hnone]
      simp [sdictGet, sdictGet_set_self]
    · simp only [sdictGet, hk, if_false]
      cases hrest : sdictGet rest k
      · simp [sdictGet_set_ne d kv.1 k kv.2 hk]
      · simp

theorem sdictGet_unwrap (d : PyDict) (k : String) :
    sdictGet (unwrap_singleton_values d) k
      = (sdictGet d k).map (fun v => match v with
          | PyVal.list [x] => x
          | v => v) := by
  induction d with
  | nil => rfl
  | cons kv rest ih =>
    by_cases hk : kv.1 = k
    · simp [unwrap_singleton_values, sdictGet, hk]
    · simp only [unwrap_singleton_values, List.map_cons, sdictGet, hk,
        if_false] at ih ⊢
      exact ih

theorem mapM_asStr_map (xs : List String) :
    (xs.map PyVal.str).mapM asStr = Except.ok xs := by
  induction xs with
  | nil => rfl
  | cons x rest ih =>
    simp only [List.map_cons, List.mapM_cons, ih, asStr]
    rfl

theorem transform_time_param_none (k : String) (v : List ℤ)
    (h : k ∉ (["hours", "days", "months", "years"] : List String)) :
    transform_time_param k v = none := by
  simp only [List.mem_cons, List.not_mem_nil, or_false] at h
  push_neg at h
  obtain ⟨h1, h2, h3, h4⟩ := h
  simp [transform_time_param, h1, h2, h3, h4]

/-- C2: the spec says constructing a `CDSDataOpener` succeeds and builds the
three-handler registry.  In the source it cannot: `CDSDataOpener.__init__`
runs `from xcube_cds.datasets.seaice import SeaIceHandler`, but the module
`xcube_cds/datasets/seaice.py` defines the class under the name
`SeaiceHandler` (lower-case "i"), so every construction attempt dies with
an `ImportError` for the name "SeaIceHandler" (second conjunct: the
actually-defined name would import fine) and the registry is never
completed. -/
theorem C2_opener_construction_fails :
    (∀ table : ERA5Table,
      cdsDataOpenerInit table = Except.error (PyErr.importError "SeaIceHandler"))
    ∧ importSeaiceHandlerClass "SeaiceHandler" = Except.ok () :=
  ⟨fun _ => rfl, rfl⟩

/-- C5: corrected.  `CDSDataStore.search_data` never returns results, but it
does not always fail with `NotImplementedError`: it first validates the
requested data type, so an incompatible data type fails with
`DataStoreError` before the `NotImplementedError` of the delegated default
search is reached.  For a compatible (or absent) data type the claimed
`NotImplementedError` is raised. -/
theorem C5_search_data_never_succeeds (t : DataTypeArg) (params : PyDict) :
    (isDataTypeSatisfied t = true →
      storeSearchData t params = Except.error PyErr.notImplementedError)
    ∧ (isDataTypeSatisfied t = false →
      storeSearchData t params
        = Except.error (PyErr.dataStoreError "Supplied data type is not compatible"))
    ∧ ∀ res, storeSearchData t params ≠ Except.ok res := by
  refine ⟨fun h => ?_, fun h => ?_, fun res hres => ?_⟩
  · simp [storeSearchData, validateDataType, h, defaultSearchMixinSearchData]
  · simp [storeSearchData, validateDataType, h]
  · cases h : isDataTypeSatisfied t <;>
      simp [storeSearchData, validateDataType, defaultSearchMixinSearchData,
        h] at hres

theorem C5_witness :
    isDataTypeSatisfied DataTypeArg.dataset = true
    ∧ storeSearchData DataTypeArg.dataset []
        = Except.error PyErr.notImplementedError :=
  ⟨rfl, (C5_search_data_never_succeeds DataTypeArg.dataset []).1 rfl⟩

/-- C5: the counterexample to the claim as stated: for the incompatible
data type "geodataframe", `search_data` fails with `DataStoreError`, not
with `NotImplementedError`. -/
theorem C5_counterexample :
    storeSearchData (DataTypeArg.other "geodataframe") []
        = Except.error (PyErr.dataStoreError "Supplied data type is not compatible")
    ∧ storeSearchData (DataTypeArg.other "geodataframe") []
        ≠ Except.error PyErr.notImplementedError :=
  ⟨rfl, fun h => absurd (Except.error.inj h) (by decide)⟩

/-- C8: `unwrap_singleton_values` keeps the entries (and so the keys) of
the dictionary in place; an entry whose value is a list of length exactly
one is replaced by its sole element, and every other entry (a list of
another length, or not a list at all) is unchanged. -/
theorem C8_unwrap_singleton_values (d : PyDict) :
    (unwrap_singleton_values d).length = d.length
    ∧ ∀ (i : ℕ) (hi : i < d.length) (hi' : i < (unwrap_singleton_values d).length),
      ((unwrap_singleton_values d).get ⟨i, hi'⟩).1 = (d.get ⟨i, hi⟩).1
      ∧ (∀ x, (d.get ⟨i, hi⟩).2 = PyVal.list [x] →
          ((unwrap_singleton_values d).get ⟨i, hi'⟩).2 = x)
      ∧ ((∀ x, (d.get ⟨i, hi⟩).2 ≠ PyVal.list [x]) →
          ((unwrap_singleton_values d).get ⟨i, hi'⟩).2 = (d.get ⟨i, hi⟩).2) := by
  refine ⟨by simp [unwrap_singleton_values], ?_⟩
  intro i hi hi'
  have hgm : (unwrap_singleton_values d).get ⟨i, hi'⟩
      = ((d.get ⟨i, hi⟩).1, match (d.get ⟨i, hi⟩).2 with
          | PyVal.list [x] => x
          | v => v) := by
    simp [unwrap_singleton_values, List.get_eq_getElem, List.getElem_map]
  refine ⟨by rw [hgm], fun x hx => by rw [hgm, hx], fun hnx => ?_⟩
  rw [hgm]
  rcases h2 : (d.get ⟨i, hi⟩).2 with s | n | q | dt | _ | xs
  · rfl
  · rfl
  · rfl
  · rfl
  · rfl
  · rcases xs with _ | ⟨x, _ | ⟨y, rest⟩⟩
    · rfl
    · exact absurd h2 (hnx x)
    · rfl

theorem C8_witness :
    ((unwrap_singleton_values
        [("a", PyVal.list [PyVal.int 3]), ("b", PyVal.str "x")]).get
      ⟨0, by decide⟩).2 = PyVal.int 3
    ∧ ((unwrap_singleton_values
        [("a", PyVal.list [PyVal.int 3]), ("b", PyVal.str "x")]).get
      ⟨1, by decide⟩).2 = PyVal.str "x" :=
  ⟨((C8_unwrap_singleton_values
      [("a", PyVal.list [PyVal.int 3]), ("b", PyVal.str "x")]).2 0 (by decide)
      (by decide)).2.1 (PyVal.int 3) rfl,
   (((C8_unwrap_singleton_values
      [("a", PyVal.list [PyVal.int 3]), ("b", PyVal.str "x")]).2 1 (by decide)
      (by decide)).2.2 (fun x h => by cases h)).trans rfl⟩

/-- C7: `transform_time_params` drops every entry whose key is outside the
four recognized names (first conjunct: filtering those entries away first
changes nothing), and on an input whose keys all are recognized it renames
every entry in place: hours becomes "time" with each integer formatted
zero-padded as "HH:00", days becomes "day" and months becomes "month" with
two-digit zero-padding, and years becomes "year" with four-digit
zero-padding. -/
theorem C7_transform_time_params :
    (∀ params : List (String × List ℤ),
      transform_time_params params
        = transform_time_params (params.filter (fun kv =>
            decide (kv.1 ∈ (["hours", "days", "months", "years"] : List String)))))
    ∧ ∀ params : List (String × List ℤ),
      (∀ kv ∈ params, kv.1 ∈ (["hours", "days", "months", "years"] : List String)) →
      transform_time_params params = params.map (fun kv =>
        if kv.1 = "hours" then ("time", kv.2.map fmtHourStr)
        else if kv.1 = "days" then ("day", kv.2.map (fmtInt 2))
        else if kv.1 = "months" then ("month", kv.2.map (fmtInt 2))
        else ("year", kv.2.map (fmtInt 4))) := by
  constructor
  · intro params
    induction params with
    | nil => rfl
    | cons kv rest ih =>
      by_cases hm : kv.1 ∈ (["hours", "days", "months", "years"] : List String)
      · rw [List.filter_cons_of_pos (by simpa using hm)]
        simp only [transform_time_params, List.filterMap_cons] at ih ⊢
        cases transform_time_param kv.1 kv.2 <;> simp [ih]
      · rw [List.filter_cons_of_neg (by simpa using hm)]
        have hn := transform_time_param_none kv.1 kv.2 hm
        simp only [transform_time_params, List.filterMap_cons, hn] at ih ⊢
        exact ih
  · intro params
    induction params with
    | nil => intro _; rfl
    | cons kv rest ih =>
      intro hk
      have hmem := hk kv (List.mem_cons_self kv rest)
      have hrest := fun kv' h => hk kv' (List.mem_cons_of_mem kv h)
      have ihr := ih hrest
      simp only [List.mem_cons, List.not_mem_nil, or_false] at hmem
      simp only [transform_time_params, List.filterMap_cons, List.map_cons]
        at ihr ⊢
      simp only [transform_time_param] at ihr
      rcases hmem with h | h | h | h <;> simp [transform_time_param, h, ihr]

theorem C7_witness :
    transform_time_params [("hours", ([5, 23] : List ℤ)), ("days", [7]),
        ("months", [2]), ("years", [1952]), ("bogus", [1])]
      = [("time", ["05:00", "23:00"]), ("day", ["07"]), ("month", ["02"]),
         ("year", ["1952"])] := by
  rw [C7_transform_time_params.1 [("hours", ([5, 23] : List ℤ)), ("days", [7]),
        ("months", [2]), ("years", [1952]), ("bogus", [1])]]
  rw [show ([("hours", ([5, 23] : List ℤ)), ("days", [7]), ("months", [2]),
        ("years", [1952]), ("bogus", [1])].filter (fun kv =>
          decide (kv.1 ∈ (["hours", "days", "months", "years"] : List String))))
      = [("hours", ([5, 23] : List ℤ)), ("days", [7]), ("months", [2]),
         ("years", [1952])] by decide]
  rw [C7_transform_time_params.2 _ (by decide)]
  decide

/-- C9: for any identifier not present in the handler registry (the set of
ids from `get_supported_data_ids`), `describe_data`,
`get_open_data_params_schema` (with a non-None identifier and the default
opener id) and `open_data` all fail with the `ValueError`
"Unknown data id ..." raised by `_validate_data_id`, before dispatching to
any handler, so no backend or filesystem work is reachable. -/
theorem C9_unknown_data_id (table : ERA5Table) (data_id : String)
    (h : sdictHas (intendedRegistry table) data_id = false)
    (dtype : DataTypeArg) (api_version : ℕ) (params : PyDict) :
    storeDescribeData table data_id dtype
        = Except.error (PyErr.valueError ("Unknown data id \"" ++ data_id ++ "\""))
    ∧ storeGetOpenDataParamsSchema table (some data_id) none
        = Except.error (PyErr.valueError ("Unknown data id \"" ++ data_id ++ "\""))
    ∧ storeOpenData table api_version data_id none params
        = Except.error (PyErr.valueError ("Unknown data id \"" ++ data_id ++ "\"")) := by
  refine ⟨?_, ?_, ?_⟩
  · simp [storeDescribeData, validateDataId, h]
  · simp [storeGetOpenDataParamsSchema, assertValidOpenerId,
      openerGetOpenDataParamsSchema, validateDataId, h]
  · simp [storeOpenData, assertValidOpenerId, openerOpenData,
      openerGetOpenDataParamsSchema, validateDataId, h]

theorem C9_witness :
    sdictHas (intendedRegistry []) "no-such-id" = false
    ∧ storeDescribeData [] "no-such-id" DataTypeArg.dataset
        = Except.error
            (PyErr.valueError ("Unknown data id \"" ++ "no-such-id" ++ "\"")) :=
  ⟨by decide,
   (C9_unknown_data_id [] "no-such-id" (by decide) DataTypeArg.dataset 1 []).1⟩

set_option maxRecDepth 40000 in
/-- C4: corrected.  Only the ERA5 handler checks for an empty
`variable_names` list: its `transform_params` raises
`ValueError("variable_names may not be an empty list.")` once the
identifier, bbox and resolution arguments have been read (first conjunct).
The soil-moisture handler performs no such check: the second conjunct
shows a complete soil-moisture `transform_params` call with
`variable_names=[]` succeeding (the sea-ice handler likewise does not
check, see the counterexample theorem). -/
theorem C4_empty_variable_names :
    (∀ (table : ERA5Table) (api_version : ℕ) (p : PyDict)
        (data_id nm : String) (pt : Option String) (x0 y0 x1 y1 r : ℚ),
      era5SplitId data_id = Except.ok (nm, pt) →
      sdictGet p "bbox" = some (PyVal.list [PyVal.rat x0, PyVal.rat y0,
        PyVal.rat x1, PyVal.rat y1]) →
      sdictGet p "spatial_res" = some (PyVal.rat r) →
      sdictGet p "variable_names" = some (PyVal.list []) →
      era5TransformParams table api_version p data_id
        = Except.error (PyErr.valueError "variable_names may not be an empty list."))
    ∧ (smTransformParams
        [("variable_names", PyVal.list []),
         ("type_of_record", PyVal.str "cdr"),
         ("version", PyVal.str "v201912.0.0"),
         ("time_range", PyVal.list [PyVal.dt ⟨2016, 1, 10, 0, 0⟩,
            PyVal.dt ⟨2016, 1, 12, 0, 0⟩])]
        "satellite-soil-moisture:saturation:daily").isOk = true := by
  constructor
  · intro table api_version p data_id nm pt x0 y0 x1 y1 r hsplit hbb hres hvn
    simp [era5TransformParams, hsplit, hbb, hres, hvn, dictItem, asBBox, asRat]
  · rfl

set_option maxRecDepth 40000 in
/-- C4: the counterexample to the claim as stated: the sea-ice handler's
`transform_params` accepts `variable_names=[]` and builds a CDS request
without raising (its `variable` entry is the constant "all"). -/
theorem C4_counterexample :
    (seaiceTransformParams
        [("variable_names", PyVal.list []),
         ("type_of_record", PyVal.str "cdr"),
         ("version", PyVal.str "2.0"),
         ("time_range", PyVal.list [PyVal.dt ⟨2021, 1, 5, 0, 0⟩,
            PyVal.dt ⟨2021, 1, 6, 0, 0⟩])]
        "satellite-sea-ice-thickness:envisat").isOk = true := rfl

theorem C4_witness :
    era5SplitId "reanalysis-era5-land" = Except.ok ("reanalysis-era5-land", none)
    ∧ era5TransformParams [] 1
        [("bbox", PyVal.list [PyVal.rat 0, PyVal.rat 0, PyVal.rat 10,
            PyVal.rat 10]),
         ("spatial_res", PyVal.rat (1 / 4)),
         ("variable_names", PyVal.list [])]
        "reanalysis-era5-land"
        = Except.error
            (PyErr.valueError "variable_names may not be an empty list.") :=
  ⟨rfl, C4_empty_variable_names.1 [] 1
    [("bbox", PyVal.list [PyVal.rat 0, PyVal.rat 0, PyVal.rat 10,
        PyVal.rat 10]),
     ("spatial_res", PyVal.rat (1 / 4)),
     ("variable_names", PyVal.list [])]
    "reanalysis-era5-land" "reanalysis-era5-land" none 0 0 10 10 (1 / 4)
    rfl rfl rfl rfl⟩

theorem era5BaseId_of_split {data_id nm : String} {pt : Option String}
    (h : era5SplitId data_id = Except.ok (nm, pt)) :
    era5BaseId data_id = nm := by
  unfold era5SplitId at h
  unfold era5BaseId
  rcases hsp : pySplit data_id ':' with _ | ⟨a, _ | ⟨b, _ | ⟨c, rest⟩⟩⟩ <;>
    rw [hsp] at h <;> simp_all

/-- C10: for an ERA5 `transform_params` call on any valid open-parameter
set (a well-formed compound id with its info-table entry, a bbox, a time
range, a spatial resolution that is either given explicitly or left to the
dataset info table, a variable selection that is either an explicit
non-empty list or None meaning the dataset's whole variable table, and no
explicit hours/days/months/years overrides, which the schema excludes),
the produced CDS request carries the output format under the key "format"
and not under "data_format" when the handler holds api_version 1, and
under "data_format" and not under "format" when it holds api_version 2.
The one remaining schema-valid variable selection, the explicit empty
list, produces no request at all: it raises (claim C4). -/
theorem C10_format_key (table : ERA5Table) (api_version : ℕ) (p : PyDict)
    (data_id nm : String) (pt : Option String) (info : ERA5DsInfo)
    (x0 y0 x1 y1 r : ℚ) (v0 : String) (vrest : List String) (t0 t1 : DT)
    (hv : api_version = 1 ∨ api_version = 2)
    (hsplit : era5SplitId data_id = Except.ok (nm, pt))
    (hinfo : sdictGet table (era5BaseId data_id) = some info)
    (hbb : sdictGet p "bbox" = some (PyVal.list [PyVal.rat x0, PyVal.rat y0,
      PyVal.rat x1, PyVal.rat y1]))
    (hres : sdictGet p "spatial_res" = some (PyVal.rat r)
      ∨ sdictGet p "spatial_res" = none)
    (hvn : sdictGet p "variable_names"
        = some (PyVal.list (PyVal.str v0 :: vrest.map PyVal.str))
      ∨ sdictGet p "variable_names" = some PyVal.pynone)
    (htr : sdictGet p "time_range"
      = some (PyVal.list [PyVal.dt t0, PyVal.dt t1]))
    (hh : sdictGet p "hours" = none) (hd : sdictGet p "days" = none)
    (hm : sdictGet p "months" = none) (hy : sdictGet p "years" = none) :
    match era5TransformParams table api_version p data_id with
    | Except.ok (n, req) =>
        n = nm
        ∧ (api_version = 1 →
            sdictHas req "format" = true ∧ sdictHas req "data_format" = false)
        ∧ (api_version = 2 →
            sdictHas req "data_format" = true ∧ sdictHas req "format" = false)
    | Except.error _ => False := by
  have hmapm : (PyVal.str v0 :: vrest.map PyVal.str).mapM asStr
      = Except.ok (v0 :: vrest) := mapM_asStr_map (v0 :: vrest)
  have hmapl : List.mapM.loop asStr (PyVal.str v0 :: vrest.map PyVal.str) []
      = Except.ok (v0 :: vrest) := mapM_asStr_map (v0 :: vrest)
  have hinfonm : sdictGet table nm = some info := by
    rw [← era5BaseId_of_split hsplit]
    exact hinfo
  rcases hv with rfl | rfl <;> rcases pt with _ | pt <;>
    rcases hres with hres | hres <;> rcases hvn with hvn | hvn <;>
    simp [era5TransformParams, hsplit, hinfo, hinfonm, sdictItem, hbb, hres,
      hvn, htr, hh, hd, hm, hy, dictItem, asBBox, asRat, asStrList, asDtPair,
      hmapm, hmapl, era5FormatKey, sdictHas, era5ExplicitTimeEntries,
      transform_time_params, transform_time_param, selectorsItems,
      sdictUpdate, sdictSet, unwrap_singleton_values, sdictGet]

theorem C10_witness :
    match era5TransformParams
        [("reanalysis-era5-land",
          (⟨"ERA5-Land hourly data", [("2m_temperature", "t2m", "K",
              "2 metre temperature")],
            ⟨-180, -90, 180, 90⟩, 1 / 10, "1h", [], "WGS84"⟩ : ERA5DsInfo))]
        2
        [("bbox", PyVal.list [PyVal.rat 0, PyVal.rat 0, PyVal.rat 10,
            PyVal.rat 10]),
         ("variable_names", PyVal.pynone),
         ("time_range", PyVal.list [PyVal.dt ⟨2015, 10, 1, 0, 0⟩,
            PyVal.dt ⟨2016, 2, 1, 0, 0⟩])]
        "reanalysis-era5-land" with
    | Except.ok (n, req) =>
        n = "reanalysis-era5-land"
        ∧ ((2 : ℕ) = 1 →
            sdictHas req "format" = true ∧ sdictHas req "data_format" = false)
        ∧ ((2 : ℕ) = 2 →
            sdictHas req "data_format" = true ∧ sdictHas req "format" = false)
    | Except.error _ => False :=
  C10_format_key
    [("reanalysis-era5-land",
      (⟨"ERA5-Land hourly data", [("2m_temperature", "t2m", "K",
          "2 metre temperature")],
        ⟨-180, -90, 180, 90⟩, 1 / 10, "1h", [], "WGS84"⟩ : ERA5DsInfo))]
    2
    [("bbox", PyVal.list [PyVal.rat 0, PyVal.rat 0, PyVal.rat 10,
        PyVal.rat 10]),
     ("variable_names", PyVal.pynone),
     ("time_range", PyVal.list [PyVal.dt ⟨2015, 10, 1, 0, 0⟩,
        PyVal.dt ⟨2016, 2, 1, 0, 0⟩])]
    "reanalysis-era5-land" "reanalysis-era5-land" none
    ⟨"ERA5-Land hourly data", [("2m_temperature", "t2m", "K",
        "2 metre temperature")],
      ⟨-180, -90, 180, 90⟩, 1 / 10, "1h", [], "WGS84"⟩
    0 0 10 10 0 "" [] ⟨2015, 10, 1, 0, 0⟩ ⟨2016, 2, 1, 0, 0⟩
    (Or.inr rfl) rfl rfl rfl (Or.inr rfl) (Or.inr rfl) rfl rfl rfl rfl rfl

theorem sortedSet_nodup (xs : List ℤ) : (sortedSet xs).Nodup :=
  ((List.perm_insertionSort (· ≤ ·) xs.dedup).nodup_iff).2 (List.nodup_dedup xs)

theorem rruleList_mem_iterate (step : DT → DT) (until_ : DT) :
    ∀ (fuel : ℕ) (dt x : DT), x ∈ rruleList step fuel dt until_ →
      ∃ k, x = step^[k] dt := by
  intro fuel
  induction fuel with
  | zero =>
    intro dt x hx
    simp [rruleList] at hx
  | succ n ih =>
    intro dt x hx
    by_cases hle : dtLe dt until_
    · rw [rruleList, if_pos hle] at hx
      rcases List.mem_cons.1 hx with h | h
      · exact ⟨0, h⟩
      · obtain ⟨k, hk⟩ := ih (step dt) x h
        exact ⟨k + 1, by rw [hk, Function.iterate_succ_apply]⟩
    · rw [rruleList, if_neg hle] at hx
      simp at hx

theorem convert_months_range (t0 t1 : DT) (h0 : t0.Valid) :
    ∀ x ∈ (convert_time_range t0 t1).months, 1 ≤ x ∧ x ≤ 12 := by
  intro x hx
  simp only [convert_time_range] at hx
  rw [mem_sortedSet] at hx
  obtain ⟨d, hd, hdx⟩ := List.mem_map.1 hx
  obtain ⟨k, hk⟩ := rruleList_mem_iterate _ _ _ _ _ hd
  have hge := daysInMonth_ge t0.year t0.month h0.1 h0.2.1
  have h0v : (⟨t0.year, t0.month, 1, 0, 0⟩ : DT).Valid :=
    mk_valid _ _ _ _ _ h0.1 h0.2.1 (by omega) (by omega) (by omega) (by omega)
  have hval := (iterMonth_spec k h0v rfl).1
  rw [hk] at hdx
  rw [← hdx]
  exact ⟨by exact_mod_cast hval.1, by exact_mod_cast hval.2.1⟩

theorem fmtInt2_inj_on_months {a b : ℤ} (ha1 : 1 ≤ a) (ha2 : a ≤ 12)
    (hb1 : 1 ≤ b) (hb2 : b ≤ 12) (h : fmtInt 2 a = fmtInt 2 b) : a = b := by
  interval_cases a <;> interval_cases b <;>
    first
      | rfl
      | exact absurd h (by decide)

theorem convert_months_fmt_nodup (t0 t1 : DT) (h0 : t0.Valid) :
    ((convert_time_range t0 t1).months.map (fmtInt 2)).Nodup := by
  have hrange := convert_months_range t0 t1 h0
  have hnd : (convert_time_range t0 t1).months.Nodup := by
    simp only [convert_time_range]
    exact sortedSet_nodup _
  exact List.Nodup.map_on
    (fun x hx y hy hf => fmtInt2_inj_on_months (hrange x hx).1 (hrange x hx).2
      (hrange y hy).1 (hrange y hy).2 hf)
    hnd

theorem eraseFold_filter (us : List String) : ∀ l : List String, l.Nodup →
    us.foldl (fun acc u => if u ∈ acc then acc.erase u else acc) l
      = l.filter (fun x => decide (x ∉ us)) := by
  induction us with
  | nil =>
    intro l _
    simp
  | cons u rest ih =>
    intro l hnd
    simp only [List.foldl_cons]
    have h1 : (if u ∈ l then l.erase u else l)
        = l.filter (fun x => decide (x ≠ u)) := by
      by_cases hu : u ∈ l
      · rw [if_pos hu]
        simpa using hnd.erase_eq_filter u
      · rw [if_neg hu]
        symm
        apply List.filter_eq_self.2
        intro a ha
        simp only [decide_eq_true_eq]
        intro he
        exact hu (he ▸ ha)
    rw [h1, ih _ (List.Nodup.filter _ hnd), List.filter_filter]
    congr 1
    funext x
    simp only [List.mem_cons, not_or, Bool.decide_and, decide_not]
    rw [Bool.and_comm]

/-- C6: for every sea-ice data identifier and valid open parameters, the
CDS request built by the sea-ice handler's `transform_params` has no
"time" and no "day" key, and its month selection is exactly the
interval-derived month selector with the unsupported values "05".."09"
(May through September) removed: those are excluded even when the derived
selector included them, and every other derived month is retained (the
"month" entry is unwrapped when the selection is a singleton). -/
theorem C6_seaice_month_filter (p : PyDict) (data_id mission ver tor : String)
    (t0 t1 : DT)
    (hsplit : pySplit data_id ':' = ["satellite-sea-ice-thickness", mission])
    (hmission : mission = "envisat" ∨ mission = "cryosat-2")
    (hver : sdictGet p "version" = some (PyVal.str ver))
    (htor : sdictGet p "type_of_record" = some (PyVal.str tor))
    (htr : sdictGet p "time_range" = some (PyVal.list [PyVal.dt t0, PyVal.dt t1]))
    (h0 : t0.Valid) :
    match seaiceTransformParams p data_id with
    | Except.ok (n, req) =>
        n = "satellite-sea-ice-thickness"
        ∧ sdictHas req "time" = false
        ∧ sdictHas req "day" = false
        ∧ (sdictGet req "month" = some (PyVal.list
              ((((convert_time_range t0 t1).months.map (fmtInt 2)).filter
                (fun x => decide (x ∉ (["05", "06", "07", "08", "09"] : List String)))).map
                PyVal.str))
           ∨ ∃ m, ((convert_time_range t0 t1).months.map (fmtInt 2)).filter
                (fun x => decide (x ∉ (["05", "06", "07", "08", "09"] : List String))) = [m]
              ∧ sdictGet req "month" = some (PyVal.str m))
    | Except.error _ => False := by
  have hmfe := eraseFold_filter ["05", "06", "07", "08", "09"]
    ((convert_time_range t0 t1).months.map (fmtInt 2))
    (convert_months_fmt_nodup t0 t1 h0)
  rcases hshape : ((convert_time_range t0 t1).months.map (fmtInt 2)).filter
      (fun x => decide (x ∉ (["05", "06", "07", "08", "09"] : List String)))
    with _ | ⟨m, _ | ⟨m2, mrest⟩⟩ <;>
  rcases hmission with rfl | rfl <;>
  · simp [-List.foldl_cons, seaiceTransformParams, hsplit, hver, htor, htr,
      seaiceVarMapGet, seaiceVarMap, sdictGet, asStr, asDtPair, dictItem,
      transform_time_params, transform_time_param, selectorsItems,
      List.filter_cons, List.filter_nil]
    rw [hmfe, hshape]
    simp [sdictUpdate, sdictSet, unwrap_singleton_values, sdictGet, sdictHas]

theorem C6_witness :
    match seaiceTransformParams
        [("version", PyVal.str "2.0"), ("type_of_record", PyVal.str "cdr"),
         ("time_range", PyVal.list [PyVal.dt ⟨2021, 1, 5, 0, 0⟩,
            PyVal.dt ⟨2021, 1, 6, 0, 0⟩])]
        "satellite-sea-ice-thickness:envisat" with
    | Except.ok (n, req) =>
        n = "satellite-sea-ice-thickness"
        ∧ sdictHas req "time" = false
        ∧ sdictHas req "day" = false
        ∧ (sdictGet req "month" = some (PyVal.list
              ((((convert_time_range ⟨2021, 1, 5, 0, 0⟩
                    ⟨2021, 1, 6, 0, 0⟩).months.map (fmtInt 2)).filter
                (fun x => decide
                  (x ∉ (["05", "06", "07", "08", "09"] : List String)))).map
                PyVal.str))
           ∨ ∃ m, ((convert_time_range ⟨2021, 1, 5, 0, 0⟩
                    ⟨2021, 1, 6, 0, 0⟩).months.map (fmtInt 2)).filter
                (fun x => decide
                  (x ∉ (["05", "06", "07", "08", "09"] : List String))) = [m]
              ∧ sdictGet req "month" = some (PyVal.str m))
    | Except.error _ => False :=
  C6_seaice_month_filter
    [("version", PyVal.str "2.0"), ("type_of_record", PyVal.str "cdr"),
     ("time_range", PyVal.list [PyVal.dt ⟨2021, 1, 5, 0, 0⟩,
        PyVal.dt ⟨2021, 1, 6, 0, 0⟩])]
    "satellite-sea-ice-thickness:envisat" "envisat" "2.0" "cdr"
    ⟨2021, 1, 5, 0, 0⟩ ⟨2021, 1, 6, 0, 0⟩ rfl (Or.inl rfl) rfl rfl rfl
    (by decide)

set_option maxRecDepth 40000 in
set_option maxHeartbeats 2000000 in
/-- C1: the covering property, sortedness and the worked example of
`convert_time_range`: for every valid interval [s, e] and every valid
instant t inside it, the hour, day-of-month, month and year of t are
members of the corresponding selector list; each of the four lists is
strictly sorted ascending (so duplicate-free); and the example interval
1952-02-20T05:00Z .. 1952-02-20T08:00Z yields hours [5,6,7,8], days [20],
months [2], years [1952]. -/
theorem C1_convert_time_range_covering (s e t : DT) (hs : s.Valid)
    (he : e.Valid) (ht : t.Valid) (hst : dtLe s t) (hte : dtLe t e) :
    ((t.hour : ℤ) ∈ (convert_time_range s e).hours
      ∧ (t.day : ℤ) ∈ (convert_time_range s e).days
      ∧ (t.month : ℤ) ∈ (convert_time_range s e).months
      ∧ (t.year : ℤ) ∈ (convert_time_range s e).years)
    ∧ ((convert_time_range s e).hours.Sorted (· < ·)
      ∧ (convert_time_range s e).days.Sorted (· < ·)
      ∧ (convert_time_range s e).months.Sorted (· < ·)
      ∧ (convert_time_range s e).years.Sorted (· < ·))
    ∧ convert_time_range ⟨1952, 2, 20, 5, 0⟩ ⟨1952, 2, 20, 8, 0⟩
        = ⟨[5, 6, 7, 8], [20], [2], [1952]⟩ :=
  by
  refine ⟨⟨hours_covering hs he ht hst hte, days_covering hs he ht hst hte,
    months_covering hs he ht hst hte, years_covering hst hte⟩,
    ⟨?_, ?_, ?_, years_sorted s e⟩, ?_⟩
  · simp only [convert_time_range]
    exact sortedSet_sorted _
  · simp only [convert_time_range]
    exact sortedSet_sorted _
  · simp only [convert_time_range]
    exact sortedSet_sorted _
  · rfl

theorem C1_witness :
    (DT.Valid ⟨2020, 1, 10, 0, 0⟩ ∧ DT.Valid ⟨2020, 1, 20, 0, 0⟩
      ∧ DT.Valid ⟨2020, 1, 15, 12, 30⟩
      ∧ dtLe ⟨2020, 1, 10, 0, 0⟩ ⟨2020, 1, 15, 12, 30⟩
      ∧ dtLe ⟨2020, 1, 15, 12, 30⟩ ⟨2020, 1, 20, 0, 0⟩)
    ∧ ((12 : ℤ) ∈ (convert_time_range ⟨2020, 1, 10, 0, 0⟩
          ⟨2020, 1, 20, 0, 0⟩).hours
      ∧ (15 : ℤ) ∈ (convert_time_range ⟨2020, 1, 10, 0, 0⟩
          ⟨2020, 1, 20, 0, 0⟩).days) :=
  ⟨⟨by decide, by decide, by decide, by decide, by decide⟩,
   (C1_convert_time_range_covering ⟨2020, 1, 10, 0, 0⟩ ⟨2020, 1, 20, 0, 0⟩
      ⟨2020, 1, 15, 12, 30⟩ (by decide) (by decide) (by decide) (by decide)
      (by decide)).1.1,
   (C1_convert_time_range_covering ⟨2020, 1, 10, 0, 0⟩ ⟨2020, 1, 20, 0, 0⟩
      ⟨2020, 1, 15, 12, 30⟩ (by decide) (by decide) (by decide) (by decide)
      (by decide)).1.2.1⟩

theorem sdictGet_update_of_get {α : Type} (d : SDict α) {e : SDict α}
    {k : String} {v : α} (hnd : (e.map Prod.fst).Nodup)
    (h : sdictGet e k = some v) : sdictGet (sdictUpdate d e) k = some v := by
  rw [sdictGet_update d e k hnd, h]

theorem sdictGet_set {α : Type} (d : SDict α) (k0 k : String) (v : α) :
    sdictGet (sdictSet d k0 v) k
      = if k0 = k then some v else sdictGet d k := by
  by_cases h : k0 = k
  · subst h
    rw [if_pos rfl]
    exact sdictGet_set_self d k0 v
  · rw [if_neg h]
    exact sdictGet_set_ne d k0 k v h

theorem sdictGet_registerHandler (tag : HandlerTag) (k : String) :
    ∀ (ids : List String) (reg : SDict HandlerTag),
      sdictGet (registerHandler reg tag ids) k
        = if k ∈ ids then some tag else sdictGet reg k := by
  intro ids
  induction ids with
  | nil =>
    intro reg
    simp [registerHandler]
  | cons i rest ih =>
    intro reg
    have hstep : registerHandler reg tag (i :: rest)
        = registerHandler (sdictSet reg i tag) tag rest := rfl
    rw [hstep, ih]
    by_cases hk : k ∈ rest
    · simp [hk]
    · rcases eq_or_ne i k with rfl | hik
      · simp [hk, sdictGet_set]
      · simp [hk, sdictGet_set, hik, Ne.symm hik]

theorem sdictKeys_defaults_subset (props : SDict (Option PyVal)) :
    ∀ k ∈ sdictKeys (props.filterMap
        (fun kv => kv.2.map (fun dv => (kv.1, dv)))),
      k ∈ sdictKeys props := by
  induction props with
  | nil =>
    intro k hk
    simp [sdictKeys] at hk
  | cons kv rest ih =>
    intro k hk
    rcases kv with ⟨k0, v0⟩
    cases v0 with
    | none =>
      simp only [List.filterMap_cons, Option.map_none'] at hk
      simp only [sdictKeys, List.map_cons, List.mem_cons]
      exact Or.inr (ih k hk)
    | some dv =>
      simp only [List.filterMap_cons, Option.map_some'] at hk
      simp only [sdictKeys, List.map_cons, List.mem_cons] at hk ⊢
      rcases hk with h | h
      · exact Or.inl h
      · exact Or.inr (ih k h)

theorem createTimeRange_ok (a b : DT) (spec : String) (n : ℕ) (u : Char)
    (hp : parseTimePeriod spec = some (n, u)) :
    ∃ tc, createTimeRange a b (some spec) = Except.ok tc := by
  unfold createTimeRange
  simp only [hp, pyBind_ok]
  by_cases hm : u = 'M' ∨ u = 'Y'
  · rw [if_pos hm]
    exact ⟨_, rfl⟩
  · rw [if_neg hm]
    exact ⟨_, rfl⟩

theorem era5_empty_open (table : ERA5Table) (apiv : ℕ) (data_id : String)
    (info : ERA5DsInfo) (p : PyDict) (x0 y0 x1 y1 r : ℚ) (t0 t1 : DT)
    (n : ℕ) (u : Char)
    (hreg : sdictGet (intendedRegistry table) data_id = some HandlerTag.era5)
    (hinfo : sdictGet table (era5BaseId data_id) = some info)
    (hpp : parseTimePeriod info.time_period = some (n, u))
    (hnd : (p.map Prod.fst).Nodup)
    (hkeys : ∀ kv ∈ p, kv.1 ∈ (["variable_names", "bbox", "spatial_res",
      "time_range"] : List String))
    (hvn : sdictGet p "variable_names" = some (PyVal.list []))
    (hbb : sdictGet p "bbox" = some (PyVal.list [PyVal.rat x0, PyVal.rat y0,
      PyVal.rat x1, PyVal.rat y1]))
    (hres : sdictGet p "spatial_res" = some (PyVal.rat r))
    (htr : sdictGet p "time_range"
      = some (PyVal.list [PyVal.dt t0, PyVal.dt t1])) :
    ∃ tc, createTimeRange t0 t1 (some info.time_period) = Except.ok tc
      ∧ openerOpenData table apiv data_id p
        = Except.ok (OpenOutcome.empty ⟨[],
            arangeRat x0 (x1 + r * (99 / 100)) r,
            arangeRat y0 (y1 + r * (99 / 100)) r, tc⟩) := by
  obtain ⟨tc, htc⟩ := createTimeRange_ok t0 t1 info.time_period n u hpp
  refine ⟨tc, htc, ?_⟩
  have h1 : sdictGet (sdictUpdate [] p) "variable_names"
      = some (PyVal.list []) := sdictGet_update_of_get [] hnd hvn
  have h2 := sdictGet_update_of_get ([] : PyDict) hnd hbb
  have h3 := sdictGet_update_of_get ([] : PyDict) hnd hres
  have h4 := sdictGet_update_of_get ([] : PyDict) hnd htr
  have hm1 : "variable_names" ∈ sdictKeys p := sdictGet_some_mem_keys hvn
  have hm2 : "bbox" ∈ sdictKeys p := sdictGet_some_mem_keys hbb
  have hm3 : "time_range" ∈ sdictKeys p := sdictGet_some_mem_keys htr
  have hsub : ∀ k ∈ sdictKeys p, k ∈ sdictKeys
      ([("variable_names", (none : Option PyVal)), ("bbox", none),
        ("spatial_res", none), ("time_range", none)]) := by
    intro k hk
    simp only [sdictKeys, List.mem_map] at hk
    obtain ⟨kv, hkv, rfl⟩ := hk
    simpa [sdictKeys] using hkeys kv hkv
  simp [openerOpenData, openerGetOpenDataParamsSchema, validateDataId,
    sdictHas, hreg, era5GetOpenDataParamsSchema, sdictItem, hinfo,
    validateInstance, hm1, hm2, hm3, hsub, fillDefaults, dictItem,
    List.filterMap_cons, h1, h2, h3, h4, PyVal.isEmptyList,
    createEmptyDataset, handlerDescribeCore, era5DescribeCore, asBBox,
    asRat, asDtPair, htc]
  rw [if_pos hsub]
  rfl

theorem sm_empty_open (table : ERA5Table) (apiv : ℕ) (data_id : String)
    (props : SDict (Option PyVal)) (tp : String) (n : ℕ) (u : Char)
    (p : PyDict) (t0 t1 : DT)
    (htag : sdictGet (intendedRegistry table) data_id
      = some HandlerTag.soilMoisture)
    (hsch : smGetOpenDataParamsSchema data_id
      = Except.ok ⟨props, ["time_range"], false⟩)
    (hdesc : smDescribeCore data_id
      = Except.ok ⟨⟨-180, -90, 180, 90⟩, 1 / 4, some tp⟩)
    (hpp : parseTimePeriod tp = some (n, u))
    (hnd : (p.map Prod.fst).Nodup)
    (hkeys : ∀ kv ∈ p, kv.1 ∈ (["time_range", "variable_names",
      "type_of_record", "version"] : List String))
    (hpk : ∀ k ∈ (["time_range", "variable_names", "type_of_record",
      "version"] : List String), k ∈ sdictKeys props)
    (hbk : "bbox" ∉ sdictKeys props)
    (hrk : "spatial_res" ∉ sdictKeys props)
    (hvn : sdictGet p "variable_names" = some (PyVal.list []))
    (htr : sdictGet p "time_range"
      = some (PyVal.list [PyVal.dt t0, PyVal.dt t1])) :
    ∃ tc, createTimeRange t0 t1 (some tp) = Except.ok tc
      ∧ openerOpenData table apiv data_id p
        = Except.ok (OpenOutcome.empty ⟨[],
            arangeRat (-180) (180 + (1 / 4) * (99 / 100)) (1 / 4),
            arangeRat (-90) (90 + (1 / 4) * (99 / 100)) (1 / 4), tc⟩) := by
  obtain ⟨tc, htc⟩ := createTimeRange_ok t0 t1 tp n u hpp
  refine ⟨tc, htc, ?_⟩
  have hdefs := sdictKeys_defaults_subset props
  have hnk : ∀ s : String, s ∉ (["time_range", "variable_names",
      "type_of_record", "version"] : List String) → sdictGet p s = none :=
    fun s hs => sdictGet_eq_none_of_not_mem (fun hmem => by
      simp only [sdictKeys, List.mem_map] at hmem
      obtain ⟨kv, hkv, hkeq⟩ := hmem
      exact hs (hkeq ▸ hkeys kv hkv))
  have h1 : sdictGet (sdictUpdate (props.filterMap
      (fun kv => kv.2.map (fun dv => (kv.1, dv)))) p) "variable_names"
      = some (PyVal.list []) := sdictGet_update_of_get _ hnd hvn
  have h4 : sdictGet (sdictUpdate (props.filterMap
      (fun kv => kv.2.map (fun dv => (kv.1, dv)))) p) "time_range"
      = some (PyVal.list [PyVal.dt t0, PyVal.dt t1]) :=
    sdictGet_update_of_get _ hnd htr
  have h2 : sdictGet (sdictUpdate (props.filterMap
      (fun kv => kv.2.map (fun dv => (kv.1, dv)))) p) "bbox" = none := by
    rw [sdictGet_update _ p _ hnd, hnk "bbox" (by decide)]
    exact sdictGet_eq_none_of_not_mem (fun hm => hbk (hdefs _ hm))
  have h3 : sdictGet (sdictUpdate (props.filterMap
      (fun kv => kv.2.map (fun dv => (kv.1, dv)))) p) "spatial_res"
      = none := by
    rw [sdictGet_update _ p _ hnd, hnk "spatial_res" (by decide)]
    exact sdictGet_eq_none_of_not_mem (fun hm => hrk (hdefs _ hm))
  have hm3 : "time_range" ∈ sdictKeys p := sdictGet_some_mem_keys htr
  have hsub : ∀ k ∈ sdictKeys p, k ∈ sdictKeys props := by
    intro k hk
    simp only [sdictKeys, List.mem_map] at hk
    obtain ⟨kv, hkv, rfl⟩ := hk
    exact hpk _ (hkeys kv hkv)
  simp [openerOpenData, openerGetOpenDataParamsSchema, validateDataId,
    sdictHas, htag, hsch, validateInstance, hm3, hsub, fillDefaults,
    dictItem, h1, h2, h3, h4, PyVal.isEmptyList, createEmptyDataset,
    handlerDescribeCore, hdesc, asDtPair, htc]
  rw [if_pos hsub]
  rfl

/-- C3: corrected.  For the ERA5 and soil-moisture identifiers the claim
holds: `open_data` with `variable_names=[]` never reaches a handler's
`transform_params` (so no backend client is created and `retrieve` is
never invoked) and returns the synthesized empty dataset: no data
variables, lon/lat grids running from the bbox edge in steps of the
spatial resolution up to the opposite edge plus 0.99 times the
resolution, and the time coordinate produced by the aggregation-period
stepping of `_create_time_range`.  For the two sea-ice identifiers the
claim fails: fetching the open-parameter schema crashes in a three-way
tuple unpacking before the short circuit is reached (see the
counterexample theorem). -/
theorem C3_empty_variables_short_circuit :
    (∀ (table : ERA5Table) (apiv : ℕ) (data_id : String) (info : ERA5DsInfo)
        (p : PyDict) (x0 y0 x1 y1 r : ℚ) (t0 t1 : DT) (n : ℕ) (u : Char),
      sdictGet (intendedRegistry table) data_id = some HandlerTag.era5 →
      sdictGet table (era5BaseId data_id) = some info →
      parseTimePeriod info.time_period = some (n, u) →
      (p.map Prod.fst).Nodup →
      (∀ kv ∈ p, kv.1 ∈ (["variable_names", "bbox", "spatial_res",
        "time_range"] : List String)) →
      sdictGet p "variable_names" = some (PyVal.list []) →
      sdictGet p "bbox" = some (PyVal.list [PyVal.rat x0, PyVal.rat y0,
        PyVal.rat x1, PyVal.rat y1]) →
      sdictGet p "spatial_res" = some (PyVal.rat r) →
      sdictGet p "time_range" = some (PyVal.list [PyVal.dt t0, PyVal.dt t1]) →
      ∃ tc, createTimeRange t0 t1 (some info.time_period) = Except.ok tc
        ∧ openerOpenData table apiv data_id p
          = Except.ok (OpenOutcome.empty ⟨[],
              arangeRat x0 (x1 + r * (99 / 100)) r,
              arangeRat y0 (y1 + r * (99 / 100)) r, tc⟩))
    ∧ (∀ (table : ERA5Table) (apiv : ℕ) (data_id : String) (p : PyDict)
        (t0 t1 : DT),
      data_id ∈ smDataIds →
      (p.map Prod.fst).Nodup →
      (∀ kv ∈ p, kv.1 ∈ (["time_range", "variable_names", "type_of_record",
        "version"] : List String)) →
      sdictGet p "variable_names" = some (PyVal.list []) →
      sdictGet p "time_range" = some (PyVal.list [PyVal.dt t0, PyVal.dt t1]) →
      ∃ tp tc, smDescribeCore data_id
          = Except.ok ⟨⟨-180, -90, 180, 90⟩, 1 / 4, some tp⟩
        ∧ createTimeRange t0 t1 (some tp) = Except.ok tc
        ∧ openerOpenData table apiv data_id p
          = Except.ok (OpenOutcome.empty ⟨[],
              arangeRat (-180) (180 + (1 / 4) * (99 / 100)) (1 / 4),
              arangeRat (-90) (90 + (1 / 4) * (99 / 100)) (1 / 4), tc⟩)) := by
  constructor
  · intro table apiv data_id info p x0 y0 x1 y1 r t0 t1 n u hreg hinfo hpp
      hnd hkeys hvn hbb hres htr
    exact era5_empty_open table apiv data_id info p x0 y0 x1 y1 r t0 t1 n u
      hreg hinfo hpp hnd hkeys hvn hbb hres htr
  · intro table apiv data_id p t0 t1 hid hnd hkeys hvn htr
    have htag : sdictGet (intendedRegistry table) data_id
        = some HandlerTag.soilMoisture := by
      simp only [smDataIds, smDataIdMap, sdictKeys, List.map_cons,
        List.map_nil, List.mem_cons, List.not_mem_nil, or_false] at hid
      rcases hid with rfl | rfl | rfl | rfl | rfl | rfl <;>
        simp [intendedRegistry, sdictGet_registerHandler, seaiceDataIds,
          seaiceDataIdMap, smDataIds, smDataIdMap, sdictKeys]
    simp only [smDataIds, smDataIdMap, sdictKeys, List.map_cons,
      List.map_nil, List.mem_cons, List.not_mem_nil, or_false] at hid
    rcases hid with rfl | rfl | rfl | rfl | rfl | rfl <;>
      exact (sm_empty_open table apiv _ _ _ _ _ p t0 t1 htag rfl rfl rfl hnd
          hkeys (by decide) (by decide) (by decide) hvn htr).elim
        (fun tc h => ⟨_, tc, rfl, h.1, h.2⟩)

theorem C3_witness :
    ("satellite-soil-moisture:saturation:daily" ∈ smDataIds
      ∧ (([("variable_names", PyVal.list []),
          ("time_range", PyVal.list [PyVal.dt ⟨2016, 1, 10, 0, 0⟩,
            PyVal.dt ⟨2016, 1, 12, 0, 0⟩])] : PyDict).map Prod.fst).Nodup)
    ∧ ∃ tp tc, smDescribeCore "satellite-soil-moisture:saturation:daily"
        = Except.ok ⟨⟨-180, -90, 180, 90⟩, 1 / 4, some tp⟩
      ∧ createTimeRange ⟨2016, 1, 10, 0, 0⟩ ⟨2016, 1, 12, 0, 0⟩ (some tp)
          = Except.ok tc
      ∧ openerOpenData [] 1 "satellite-soil-moisture:saturation:daily"
          [("variable_names", PyVal.list []),
           ("time_range", PyVal.list [PyVal.dt ⟨2016, 1, 10, 0, 0⟩,
             PyVal.dt ⟨2016, 1, 12, 0, 0⟩])]
        = Except.ok (OpenOutcome.empty ⟨[],
            arangeRat (-180) (180 + (1 / 4) * (99 / 100)) (1 / 4),
            arangeRat (-90) (90 + (1 / 4) * (99 / 100)) (1 / 4), tc⟩) :=
  ⟨⟨by decide, by decide⟩,
   C3_empty_variables_short_circuit.2 [] 1
     "satellite-soil-moisture:saturation:daily"
     [("variable_names", PyVal.list []),
      ("time_range", PyVal.list [PyVal.dt ⟨2016, 1, 10, 0, 0⟩,
        PyVal.dt ⟨2016, 1, 12, 0, 0⟩])]
     ⟨2016, 1, 10, 0, 0⟩ ⟨2016, 1, 12, 0, 0⟩ (by decide) (by decide)
     (by decide) rfl rfl⟩

/-- C3: the counterexample to the claim as stated: for a sea-ice
identifier, `open_data` with `variable_names=[]` does not return an empty
dataset; it fails with the `ValueError` of a failed three-way tuple
unpacking (`_, mission_spec, _ = data_id.split(':')` on a two-part id)
raised while fetching the handler's open-parameter schema. -/
theorem C3_counterexample :
    openerOpenData [] 1 "satellite-sea-ice-thickness:envisat"
        [("variable_names", PyVal.list []),
         ("time_range", PyVal.list [PyVal.dt ⟨2021, 1, 5, 0, 0⟩,
            PyVal.dt ⟨2021, 1, 6, 0, 0⟩])]
      = Except.error (PyErr.valueError "not enough values to unpack") := rfl
